import Mathlib

/-!
# maxscale_node_exporter: collectors of `main.go`

A shallow embedding of the exporter's two Prometheus collectors
(`ServerCollector`, `ServiceCollector`), of the decoding helpers
`getServer` / `getService` and of the HTTP helper `getHttp`.

* Go `int` fields are `Int` (nothing is ever added or multiplied, so no
  overflow can occur); `float64(x)` is `float64`, the IEEE-754 binary64
  round-to-nearest-even conversion, whose result on an integer is again an
  integer and is stored exactly.
* A channel send `ch <- m` appends `m` to the list of what was sent.
* The outcome of a call is `Outcome`: it returns, the process exits
  (`log.Fatal`), or the goroutine panics.
* The libraries the program calls (net/http, encoding/json) are not part of the
  repository; what they answer is supplied by an `Env`.
-/

namespace MaxscaleExporter

/-! ## Data model (main.go, lines 31-115) -/

/-- Go `ServerStatistics` (lines 44-55). -/
structure ServerStatistics where
  ActiveOperations : Int
  AdaptiveAvgSelectTime : String
  ConnectionPoolEmpty : Int
  Connections : Int
  MaxConnections : Int
  MaxPoolSize : Int
  PersistentConnections : Int
  ReusedConnections : Int
  RoutedPackets : Int
  TotalConnections : Int
deriving DecidableEq, Repr

/-- Go `ServerAttributes` (lines 40-42). -/
structure ServerAttributes where
  Statistics : ServerStatistics
deriving DecidableEq, Repr

/-- Go `ServerData` (lines 35-38). -/
structure ServerData where
  ID : String
  Attributes : ServerAttributes
deriving DecidableEq, Repr

/-- Go `Server` (lines 31-33); a nil slice is the empty list. -/
structure Server where
  Data : List ServerData
deriving DecidableEq, Repr

/-- Go `ServiceRouterDiagnostics` (lines 84-92). -/
structure ServiceRouterDiagnostics where
  Queries : Int
  ReplayedTransactions : Int
  ROTransactions : Int
  RouteAll : Int
  RouteMaster : Int
  RouteSlave : Int
  RWTransactions : Int
deriving DecidableEq, Repr

/-- Go `ServiceStatisticts` (lines 94-100). -/
structure ServiceStatisticts where
  ActiveOperations : Int
  Connections : Int
  MaxConnections : Int
  RoutedPackets : Int
  TotalConnections : Int
deriving DecidableEq, Repr

/-- Go `ServiceAttributes` (lines 79-82). -/
structure ServiceAttributes where
  RouterDiagnostics : ServiceRouterDiagnostics
  Statistics : ServiceStatisticts
deriving DecidableEq, Repr

/-- Go `ServiceData` (lines 74-77). -/
structure ServiceData where
  Attributes : ServiceAttributes
  ID : String
deriving DecidableEq, Repr

/-- Go `Service` (lines 70-72). -/
structure Service where
  Data : List ServiceData
deriving DecidableEq, Repr

/-- The zero value of `Server`, what `var server Server` declares. -/
def Server.zero : Server := ⟨[]⟩

/-- The zero value of `Service`, what `var service Service` declares. -/
def Service.zero : Service := ⟨[]⟩

/-! ## Struct tags: the JSON name of every field -/

/-- A field value as the JSON decoder sees it: a Go `int` or a Go `string`. -/
inductive FieldValue where
  | int (v : Int)
  | str (s : String)
deriving DecidableEq, Repr

/-- The field of `ServerStatistics` that carries the struct tag `json:"name"`
(lines 45-54). -/
def ServerStatistics.field (s : ServerStatistics) (name : String) : Option FieldValue :=
  if name = "active_operations" then some (.int s.ActiveOperations)
  else if name = "adaptive_avg_select_time" then some (.str s.AdaptiveAvgSelectTime)
  else if name = "connection_pool_empty" then some (.int s.ConnectionPoolEmpty)
  else if name = "connections" then some (.int s.Connections)
  else if name = "max_connections" then some (.int s.MaxConnections)
  else if name = "max_pool_size" then some (.int s.MaxPoolSize)
  else if name = "persistent_connections" then some (.int s.PersistentConnections)
  else if name = "reused_connections" then some (.int s.ReusedConnections)
  else if name = "routed_packets" then some (.int s.RoutedPackets)
  else if name = "total_connections" then some (.int s.TotalConnections)
  else none

/-- The field of `ServiceRouterDiagnostics` that carries the struct tag
`json:"name"` (lines 85-91). -/
def ServiceRouterDiagnostics.field (r : ServiceRouterDiagnostics) (name : String) :
    Option FieldValue :=
  if name = "queries" then some (.int r.Queries)
  else if name = "replayed_transactions" then some (.int r.ReplayedTransactions)
  else if name = "ro_transactions" then some (.int r.ROTransactions)
  else if name = "route_all" then some (.int r.RouteAll)
  else if name = "route_master" then some (.int r.RouteMaster)
  else if name = "route_slave" then some (.int r.RouteSlave)
  else if name = "rw_transactions" then some (.int r.RWTransactions)
  else none

/-- The field of `ServiceStatisticts` that carries the struct tag `json:"name"`
(lines 95-99). -/
def ServiceStatisticts.field (s : ServiceStatisticts) (name : String) : Option FieldValue :=
  if name = "active_operations" then some (.int s.ActiveOperations)
  else if name = "connections" then some (.int s.Connections)
  else if name = "max_connections" then some (.int s.MaxConnections)
  else if name = "routed_packets" then some (.int s.RoutedPackets)
  else if name = "total_connections" then some (.int s.TotalConnections)
  else none

/-! ## Outcomes of a call -/

/-- How a call ends: it returns a value, the process is terminated by
`log.Fatal` (which logs and calls `os.Exit(1)`), or the goroutine panics. -/
inductive Outcome (α : Type) where
  | ret (a : α)
  | fatal
  | panic
deriving DecidableEq, Repr

/-- Sequencing: what follows a call runs only when the call returns. -/
def Outcome.bind {α β : Type} (x : Outcome α) (f : α → Outcome β) : Outcome β :=
  match x with
  | .ret a => f a
  | .fatal => .fatal
  | .panic => .panic

instance : Monad Outcome where
  pure := Outcome.ret
  bind := Outcome.bind

/-! ## The conversion `float64(x)` of a Go `int` -/

/-- Go `float64(n)` for an integer `n`: the nearest binary64 value, ties to the
even significand. A binary64 has a 53-bit significand, so integers below `2^53`
in magnitude are exact; above, the low `e` bits are rounded away. The result
is an integer, returned exactly. -/
def float64 (n : Int) : Int :=
  let a := n.natAbs
  if a < 2 ^ 53 then n
  else
    let e := Nat.log2 a - 52
    let q := a / 2 ^ e
    let r := a % 2 ^ e
    let half := 2 ^ (e - 1)
    let q1 := if half < r ∨ (r = half ∧ q % 2 = 1) then q + 1 else q
    if n < 0 then -((q1 * 2 ^ e : Nat) : Int) else ((q1 * 2 ^ e : Nat) : Int)

/-! ## The Prometheus client library, as far as the collectors use it -/

/-- A `*prometheus.Desc` built by `prometheus.NewDesc(fqName, help,
variableLabels, nil)`. -/
structure Desc where
  fqName : String
  help : String
  variableLabels : List String
deriving DecidableEq, Repr

/-- Go `prometheus.NewDesc` with `constLabels = nil`. The names the collectors
pass are valid metric and label names, so no descriptor carries an error. -/
def NewDesc (fqName help : String) (variableLabels : List String) : Desc :=
  ⟨fqName, help, variableLabels⟩

/-- Go `prometheus.ValueType`. -/
inductive ValueType where
  | CounterValue
  | GaugeValue
  | UntypedValue
deriving DecidableEq, Repr

/-- A constant metric: one sample. `labelPairs` pairs the descriptor's variable
labels with the label values given. -/
structure Metric where
  desc : Desc
  valType : ValueType
  val : Int
  labelPairs : List (String × String)
deriving DecidableEq, Repr

/-- Go `prometheus.NewConstMetric`: an error when the number of label values is
not the number of the descriptor's variable labels. Label values are `String`s,
hence valid UTF-8, as the strings the JSON decoder produces are. -/
def NewConstMetric (desc : Desc) (valueType : ValueType) (value : Int)
    (labelValues : List String) : Except String Metric :=
  if labelValues.length ≠ desc.variableLabels.length then
    .error "inconsistent label cardinality"
  else
    .ok ⟨desc, valueType, value, desc.variableLabels.zip labelValues⟩

/-- Go `prometheus.MustNewConstMetric`: panics where `NewConstMetric` returns
an error. -/
def MustNewConstMetric (desc : Desc) (valueType : ValueType) (value : Int)
    (labelValues : List String) : Outcome Metric :=
  match NewConstMetric desc valueType value labelValues with
  | .ok m => .ret m
  | .error _ => .panic

/-! ## The environment: configuration and what the libraries answer -/

/-- A Go `*http.Request`, as far as `getHttp` sets it up. -/
structure Request where
  method : String
  url : String
  header : List (String × String)
  basicAuth : Option (String × String)
deriving DecidableEq, Repr

/-- Go `req.Header.Add(key, value)`. -/
def Request.HeaderAdd (req : Request) (key value : String) : Request :=
  { req with header := req.header ++ [(key, value)] }

/-- Go `req.SetBasicAuth(username, password)`. -/
def Request.SetBasicAuth (req : Request) (username password : String) : Request :=
  { req with basicAuth := some (username, password) }

/-- The error `json.Unmarshal` returns, when it returns one. -/
inductive UnmarshalError where
  | SyntaxError
  | UnmarshalTypeError
deriving DecidableEq, Repr

/-- What `json.Unmarshal(data, &v)` does with a byte slice, for a target that
holds its zero value. The decoder first checks that the bytes are well-formed
JSON and returns a syntax error without touching the target when they are not
(`malformed`). Well-formed JSON is decoded into the target: without an error
(`decoded`), or, when a JSON value does not fit the Go type of its field, with
that field skipped, the rest decoded and a type error returned
(`mismatch`). -/
inductive Decoding (α : Type) where
  | decoded (v : α)
  | malformed
  | mismatch (v : α)
deriving DecidableEq, Repr

/-- Go `json.Unmarshal(data, &target)`: the new content of the target and the
error returned. -/
def Unmarshal {α : Type} (r : Decoding α) (target : α) : α × Option UnmarshalError :=
  match r with
  | .decoded v => (v, none)
  | .malformed => (target, some .SyntaxError)
  | .mismatch v => (v, some .UnmarshalTypeError)

/-- The package-level configuration variables (lines 17-22) and the answers of
the world outside the program during one scrape. -/
structure Env where
  configUsername : String
  configPassword : String
  configHost : String
  configPort : Int
  /-- Whether `http.NewRequest(method, url, nil)` returns a request (`err == nil`). -/
  requestOk : String → String → Bool
  /-- What `client.Do(req)` answers within the 10 s timeout: `none` for
  `err != nil`, else the bytes `ioutil.ReadAll(res.Body)` yields. -/
  clientDo : Request → Option (List UInt8)
  /-- What the JSON decoder makes of a body, for a `Server` target. -/
  jsonServer : List UInt8 → Decoding Server
  /-- What the JSON decoder makes of a body, for a `Service` target. -/
  jsonService : List UInt8 → Decoding Service

/-- Go `strconv.Itoa`. -/
def Itoa (n : Int) : String := toString n

/-- Go `http.NewRequest(method, url, nil)`: the request, or `none` for the nil
request that comes with an error. -/
def NewRequest (env : Env) (method url : String) : Option Request :=
  if env.requestOk method url then some ⟨method, url, [], none⟩ else none

/-! ## getHttp, getServer, getService (lines 212-251) -/

/-- Go `getHttp` (lines 226-251). The error of `http.NewRequest` is dropped, so
a nil request is dereferenced by `req.Header.Add`; an error of `client.Do`
runs `log.Fatal`; the error of `ioutil.ReadAll` is dropped. Log lines are not
modelled. -/
def getHttp (env : Env) (path : String) : Outcome (List UInt8) :=
  let url := env.configHost ++ ":" ++ Itoa env.configPort ++ "/v1/" ++ path
  match NewRequest env "GET" url with
  | none => .panic
  | some req =>
    let req := req.HeaderAdd "Accept" "application/json"
    let req := req.HeaderAdd "Content-Type" "application/json"
    let req := req.SetBasicAuth env.configUsername env.configPassword
    match env.clientDo req with
    | none => .fatal
    | some body => .ret body

/-- Go `getServer` (lines 212-217): the error of `json.Unmarshal` is dropped. -/
def getServer (env : Env) : Outcome Server := do
  let data ← getHttp env "servers"
  let server := Server.zero
  let (server, _) := Unmarshal (env.jsonServer data) server
  return server

/-- Go `getService` (lines 219-224): the error of `json.Unmarshal` is dropped. -/
def getService (env : Env) : Outcome Service := do
  let data ← getHttp env "services"
  let service := Service.zero
  let (service, _) := Unmarshal (env.jsonService data) service
  return service

/-! ## The server collector (lines 57-68, 117-159) -/

/-- Go `ServerCollector` (lines 57-68). -/
structure ServerCollector where
  ActiveOperations : Desc
  AdaptiveAvgSelectTime : Desc
  ConnectionPoolEmpty : Desc
  Connections : Desc
  MaxConnections : Desc
  MaxPoolSize : Desc
  PersistentConnections : Desc
  ReusedConnections : Desc
  RoutedPackets : Desc
  TotalConnections : Desc
deriving DecidableEq, Repr

/-- Go `newServerCollector` (lines 117-130). -/
def newServerCollector : ServerCollector where
  ActiveOperations := NewDesc "s_active_operations" "" ["server"]
  AdaptiveAvgSelectTime := NewDesc "s_adaptive_avg_select_time" "" ["server"]
  ConnectionPoolEmpty := NewDesc "s_connection_pool_empty" "" ["server"]
  Connections := NewDesc "s_connections" "" ["server"]
  MaxConnections := NewDesc "s_max_connections" "" ["server"]
  MaxPoolSize := NewDesc "s_max_pool_size" "" ["server"]
  PersistentConnections := NewDesc "s_persistent_connections" "" ["server"]
  ReusedConnections := NewDesc "s_reused_connections" "" ["server"]
  RoutedPackets := NewDesc "s_routed_packets" "" ["server"]
  TotalConnections := NewDesc "s_total_connections" "" ["server"]

/-- Go `ServerCollector.Describe` (lines 132-143): the descriptors sent, in
order. -/
def ServerCollector.Describe (c : ServerCollector) : List Desc :=
  [c.ActiveOperations, c.AdaptiveAvgSelectTime, c.ConnectionPoolEmpty, c.Connections,
   c.MaxConnections, c.MaxPoolSize, c.PersistentConnections, c.ReusedConnections,
   c.RoutedPackets, c.TotalConnections]

/-- The loop of `ServerCollector.Collect` (lines 148-158), from index `i` on,
with `ch` what was sent so far. -/
def ServerCollector.collectLoop (c : ServerCollector) (data : Server) (i : Nat)
    (ch : List Metric) : Outcome (List Metric) :=
  if h : i < data.Data.length then do
    let m ← MustNewConstMetric c.ActiveOperations .GaugeValue
      (float64 data.Data[i].Attributes.Statistics.ActiveOperations) [data.Data[i].ID]
    let ch := ch ++ [m]
    let m ← MustNewConstMetric c.ConnectionPoolEmpty .GaugeValue
      (float64 data.Data[i].Attributes.Statistics.ConnectionPoolEmpty) [data.Data[i].ID]
    let ch := ch ++ [m]
    let m ← MustNewConstMetric c.Connections .GaugeValue
      (float64 data.Data[i].Attributes.Statistics.Connections) [data.Data[i].ID]
    let ch := ch ++ [m]
    let m ← MustNewConstMetric c.MaxConnections .GaugeValue
      (float64 data.Data[i].Attributes.Statistics.MaxConnections) [data.Data[i].ID]
    let ch := ch ++ [m]
    let m ← MustNewConstMetric c.MaxPoolSize .GaugeValue
      (float64 data.Data[i].Attributes.Statistics.MaxPoolSize) [data.Data[i].ID]
    let ch := ch ++ [m]
    let m ← MustNewConstMetric c.PersistentConnections .GaugeValue
      (float64 data.Data[i].Attributes.Statistics.PersistentConnections) [data.Data[i].ID]
    let ch := ch ++ [m]
    let m ← MustNewConstMetric c.ReusedConnections .GaugeValue
      (float64 data.Data[i].Attributes.Statistics.ReusedConnections) [data.Data[i].ID]
    let ch := ch ++ [m]
    let m ← MustNewConstMetric c.RoutedPackets .GaugeValue
      (float64 data.Data[i].Attributes.Statistics.RoutedPackets) [data.Data[i].ID]
    let ch := ch ++ [m]
    let m ← MustNewConstMetric c.TotalConnections .GaugeValue
      (float64 data.Data[i].Attributes.Statistics.TotalConnections) [data.Data[i].ID]
    let ch := ch ++ [m]
    collectLoop c data (i + 1) ch
  else
    pure ch
termination_by data.Data.length - i

/-- Go `ServerCollector.Collect` (lines 145-159): the metrics sent on the
channel. -/
def ServerCollector.Collect (c : ServerCollector) (env : Env) : Outcome (List Metric) := do
  let data ← getServer env
  c.collectLoop data 0 []

/-! ## The service collector (lines 102-115, 161-210) -/

/-- Go `ServiceCollector` (lines 102-115). -/
structure ServiceCollector where
  Queries : Desc
  ReplayedTransactions : Desc
  ROTransactions : Desc
  RouteAll : Desc
  RouteMaster : Desc
  RouteSlave : Desc
  RWTransactions : Desc
  ActiveOperations : Desc
  Connections : Desc
  MaxConnections : Desc
  RoutedPackets : Desc
  TotalConnections : Desc
deriving DecidableEq, Repr

/-- Go `newServiceCollector` (lines 161-176). -/
def newServiceCollector : ServiceCollector where
  Queries := NewDesc "r_queries" "" ["service"]
  ReplayedTransactions := NewDesc "r_replayed_transactions" "" ["service"]
  ROTransactions := NewDesc "r_ro_transactions" "" ["service"]
  RouteAll := NewDesc "r_route_all" "" ["service"]
  RouteMaster := NewDesc "r_route_master" "" ["service"]
  RouteSlave := NewDesc "r_route_slave" "" ["service"]
  RWTransactions := NewDesc "r_rw_transactions" "" ["service"]
  ActiveOperations := NewDesc "r_active_operations" "" ["service"]
  Connections := NewDesc "r_connections" "" ["service"]
  MaxConnections := NewDesc "r_max_connections" "" ["service"]
  RoutedPackets := NewDesc "r_routed_packets" "" ["service"]
  TotalConnections := NewDesc "r_total_connections" "" ["service"]

/-- Go `ServiceCollector.Describe` (lines 178-191): the descriptors sent, in
order. -/
def ServiceCollector.Describe (c : ServiceCollector) : List Desc :=
  [c.Queries, c.ReplayedTransactions, c.ROTransactions, c.RouteAll, c.RouteMaster,
   c.RouteSlave, c.RWTransactions, c.ActiveOperations, c.Connections, c.MaxConnections,
   c.RoutedPackets, c.TotalConnections]

/-- The loop of `ServiceCollector.Collect` (lines 196-209), from index `i` on,
with `ch` what was sent so far. -/
def ServiceCollector.collectLoop (c : ServiceCollector) (data : Service) (i : Nat)
    (ch : List Metric) : Outcome (List Metric) :=
  if h : i < data.Data.length then do
    let m ← MustNewConstMetric c.Queries .GaugeValue
      (float64 data.Data[i].Attributes.RouterDiagnostics.Queries) [data.Data[i].ID]
    let ch := ch ++ [m]
    let m ← MustNewConstMetric c.ReplayedTransactions .GaugeValue
      (float64 data.Data[i].Attributes.RouterDiagnostics.ReplayedTransactions) [data.Data[i].ID]
    let ch := ch ++ [m]
    let m ← MustNewConstMetric c.ROTransactions .GaugeValue
      (float64 data.Data[i].Attributes.RouterDiagnostics.ROTransactions) [data.Data[i].ID]
    let ch := ch ++ [m]
    let m ← MustNewConstMetric c.RouteAll .GaugeValue
      (float64 data.Data[i].Attributes.RouterDiagnostics.RouteAll) [data.Data[i].ID]
    let ch := ch ++ [m]
    let m ← MustNewConstMetric c.RouteMaster .GaugeValue
      (float64 data.Data[i].Attributes.RouterDiagnostics.RouteMaster) [data.Data[i].ID]
    let ch := ch ++ [m]
    let m ← MustNewConstMetric c.RouteSlave .GaugeValue
      (float64 data.Data[i].Attributes.RouterDiagnostics.RouteSlave) [data.Data[i].ID]
    let ch := ch ++ [m]
    let m ← MustNewConstMetric c.RWTransactions .GaugeValue
      (float64 data.Data[i].Attributes.RouterDiagnostics.RWTransactions) [data.Data[i].ID]
    let ch := ch ++ [m]
    let m ← MustNewConstMetric c.ActiveOperations .GaugeValue
      (float64 data.Data[i].Attributes.Statistics.ActiveOperations) [data.Data[i].ID]
    let ch := ch ++ [m]
    let m ← MustNewConstMetric c.Connections .GaugeValue
      (float64 data.Data[i].Attributes.Statistics.Connections) [data.Data[i].ID]
    let ch := ch ++ [m]
    let m ← MustNewConstMetric c.MaxConnections .GaugeValue
      (float64 data.Data[i].Attributes.Statistics.MaxConnections) [data.Data[i].ID]
    let ch := ch ++ [m]
    let m ← MustNewConstMetric c.RoutedPackets .GaugeValue
      (float64 data.Data[i].Attributes.Statistics.RoutedPackets) [data.Data[i].ID]
    let ch := ch ++ [m]
    let m ← MustNewConstMetric c.TotalConnections .GaugeValue
      (float64 data.Data[i].Attributes.Statistics.TotalConnections) [data.Data[i].ID]
    let ch := ch ++ [m]
    collectLoop c data (i + 1) ch
  else
    pure ch
termination_by data.Data.length - i

/-- Go `ServiceCollector.Collect` (lines 193-210): the metrics sent on the
channel. -/
def ServiceCollector.Collect (c : ServiceCollector) (env : Env) : Outcome (List Metric) := do
  let data ← getService env
  c.collectLoop data 0 []

/-! ## What one instance contributes -/

/-- The sample `MustNewConstMetric(desc, GaugeValue, float64(v), id)` builds for
a descriptor with one variable label. -/
def gauge (desc : Desc) (v : Int) (id : String) : Metric :=
  ⟨desc, .GaugeValue, float64 v, desc.variableLabels.zip [id]⟩

/-- The nine samples one pass of the server loop sends for the instance `d`. -/
def serverSamples (c : ServerCollector) (d : ServerData) : List Metric :=
  [gauge c.ActiveOperations d.Attributes.Statistics.ActiveOperations d.ID,
   gauge c.ConnectionPoolEmpty d.Attributes.Statistics.ConnectionPoolEmpty d.ID,
   gauge c.Connections d.Attributes.Statistics.Connections d.ID,
   gauge c.MaxConnections d.Attributes.Statistics.MaxConnections d.ID,
   gauge c.MaxPoolSize d.Attributes.Statistics.MaxPoolSize d.ID,
   gauge c.PersistentConnections d.Attributes.Statistics.PersistentConnections d.ID,
   gauge c.ReusedConnections d.Attributes.Statistics.ReusedConnections d.ID,
   gauge c.RoutedPackets d.Attributes.Statistics.RoutedPackets d.ID,
   gauge c.TotalConnections d.Attributes.Statistics.TotalConnections d.ID]

/-- The twelve samples one pass of the service loop sends for the instance `d`. -/
def serviceSamples (c : ServiceCollector) (d : ServiceData) : List Metric :=
  [gauge c.Queries d.Attributes.RouterDiagnostics.Queries d.ID,
   gauge c.ReplayedTransactions d.Attributes.RouterDiagnostics.ReplayedTransactions d.ID,
   gauge c.ROTransactions d.Attributes.RouterDiagnostics.ROTransactions d.ID,
   gauge c.RouteAll d.Attributes.RouterDiagnostics.RouteAll d.ID,
   gauge c.RouteMaster d.Attributes.RouterDiagnostics.RouteMaster d.ID,
   gauge c.RouteSlave d.Attributes.RouterDiagnostics.RouteSlave d.ID,
   gauge c.RWTransactions d.Attributes.RouterDiagnostics.RWTransactions d.ID,
   gauge c.ActiveOperations d.Attributes.Statistics.ActiveOperations d.ID,
   gauge c.Connections d.Attributes.Statistics.Connections d.ID,
   gauge c.MaxConnections d.Attributes.Statistics.MaxConnections d.ID,
   gauge c.RoutedPackets d.Attributes.Statistics.RoutedPackets d.ID,
   gauge c.TotalConnections d.Attributes.Statistics.TotalConnections d.ID]

/-! ## Concrete inputs -/

/-- An environment whose upstream answers every request with the body `body`,
which the decoder turns into `server` resp. `service`. -/
def envOf (body : List UInt8) (server : Decoding Server) (service : Decoding Service) : Env where
  configUsername := "admin"
  configPassword := "mariadb"
  configHost := "http://127.0.0.1"
  configPort := 8989
  requestOk := fun _ _ => true
  clientDo := fun _ => some body
  jsonServer := fun _ => server
  jsonService := fun _ => service

/-- An environment whose upstream cannot be reached: `client.Do` returns an
error. -/
def envDown : Env where
  configUsername := "admin"
  configPassword := "mariadb"
  configHost := "http://127.0.0.1"
  configPort := 8989
  requestOk := fun _ _ => true
  clientDo := fun _ => none
  jsonServer := fun _ => .malformed
  jsonService := fun _ => .malformed

/-- The server instance of the scenario: id `srv1`, 5 connections, at most 100
connections, and a textual select time. -/
def srv1 : ServerData where
  ID := "srv1"
  Attributes := ⟨{ ActiveOperations := 0, AdaptiveAvgSelectTime := "1.23s",
                   ConnectionPoolEmpty := 0, Connections := 5, MaxConnections := 100,
                   MaxPoolSize := 0, PersistentConnections := 0, ReusedConnections := 0,
                   RoutedPackets := 0, TotalConnections := 0 }⟩

/-- A service instance with twelve different counters. -/
def svc1 : ServiceData where
  ID := "RW-Split"
  Attributes :=
    { RouterDiagnostics := { Queries := 1, ReplayedTransactions := 2, ROTransactions := 3,
                             RouteAll := 4, RouteMaster := 5, RouteSlave := 6,
                             RWTransactions := 7 }
      Statistics := { ActiveOperations := 8, Connections := 9, MaxConnections := 10,
                      RoutedPackets := 11, TotalConnections := 12 } }

/-- An environment in which one scrape decodes `srv1` and `svc1`. -/
def envDemo : Env := envOf [] (.decoded ⟨[srv1]⟩) (.decoded ⟨[svc1]⟩)

/-- A second server instance with the ID of `srv1` and other statistics. -/
def srv1b : ServerData where
  ID := "srv1"
  Attributes := ⟨{ ActiveOperations := 0, AdaptiveAvgSelectTime := "",
                   ConnectionPoolEmpty := 0, Connections := 7, MaxConnections := 100,
                   MaxPoolSize := 0, PersistentConnections := 0, ReusedConnections := 0,
                   RoutedPackets := 0, TotalConnections := 0 }⟩

/-- An environment in which one scrape decodes two server instances that have
the same ID. -/
def envDup : Env := envOf [] (.decoded ⟨[srv1, srv1b]⟩) (.decoded ⟨[svc1]⟩)

/-- The instance `d` with its adaptive_avg_select_time field set to `t`. -/
def ServerData.withSelectTime (d : ServerData) (t : String) : ServerData :=
  { d with Attributes := ⟨{ d.Attributes.Statistics with AdaptiveAvgSelectTime := t }⟩ }

/-- What identifies a sample within a scrape: its descriptor and its label
values. -/
def Metric.key (m : Metric) : Desc × List (String × String) := (m.desc, m.labelPairs)

/-- The URL `getHttp` builds for a path (line 231). -/
def urlOf (env : Env) (path : String) : String :=
  env.configHost ++ ":" ++ Itoa env.configPort ++ "/v1/" ++ path

/-- The request `getHttp` hands to `client.Do` for a path (lines 233-237). -/
def requestOf (env : Env) (path : String) : Request :=
  ((((⟨"GET", urlOf env path, [], none⟩ : Request).HeaderAdd "Accept" "application/json").HeaderAdd
    "Content-Type" "application/json").SetBasicAuth env.configUsername env.configPassword)

/-- An environment whose upstream answers with the single byte `\x7b`, which is
not well-formed JSON. -/
def envMalformed : Env := envOf [123] .malformed .malformed

/-- A second server instance, with another ID. -/
def srv2 : ServerData where
  ID := "srv2"
  Attributes := ⟨{ ActiveOperations := 1, AdaptiveAvgSelectTime := "0ns",
                   ConnectionPoolEmpty := 0, Connections := 3, MaxConnections := 50,
                   MaxPoolSize := 0, PersistentConnections := 0, ReusedConnections := 0,
                   RoutedPackets := 0, TotalConnections := 3 }⟩

/-- A second service instance, with another ID. -/
def svc2 : ServiceData where
  ID := "Read-Only"
  Attributes :=
    { RouterDiagnostics := { Queries := 0, ReplayedTransactions := 0, ROTransactions := 0,
                             RouteAll := 0, RouteMaster := 0, RouteSlave := 0,
                             RWTransactions := 0 }
      Statistics := { ActiveOperations := 0, Connections := 1, MaxConnections := 1,
                      RoutedPackets := 0, TotalConnections := 1 } }

/-- An environment in which one scrape decodes two server instances and two
service instances, with different IDs. -/
def envTwo : Env := envOf [] (.decoded ⟨[srv1, srv2]⟩) (.decoded ⟨[svc1, svc2]⟩)

/-- The bytes of a well-formed JSON body whose `connections` is a JSON string:
an object with `"data"` holding one element, of `"id":"srv1"` and
`"attributes"` holding `"statistics"` holding `"connections":"five"`. -/
def mismatchBody : List UInt8 :=
  [
     123, 34, 100, 97, 116, 97, 34, 58, 91, 123, 34, 105, 100, 34, 58, 34,
     115, 114, 118, 49, 34, 44, 34, 97, 116, 116, 114, 105, 98, 117, 116, 101,
     115, 34, 58, 123, 34, 115, 116, 97, 116, 105, 115, 116, 105, 99, 115, 34,
     58, 123, 34, 99, 111, 110, 110, 101, 99, 116, 105, 111, 110, 115, 34, 58,
     34, 102, 105, 118, 101, 34, 125, 125, 125, 93, 125]

/-- What the decoder leaves in a `Server` target for `mismatchBody`: the
element with its ID, the string-valued `connections` skipped, so zero. -/
def srvSkipped : ServerData where
  ID := "srv1"
  Attributes := ⟨{ ActiveOperations := 0, AdaptiveAvgSelectTime := "",
                   ConnectionPoolEmpty := 0, Connections := 0, MaxConnections := 0,
                   MaxPoolSize := 0, PersistentConnections := 0, ReusedConnections := 0,
                   RoutedPackets := 0, TotalConnections := 0 }⟩

/-- What the decoder leaves in a `Service` target for `mismatchBody`. -/
def svcSkipped : ServiceData where
  ID := "srv1"
  Attributes :=
    { RouterDiagnostics := { Queries := 0, ReplayedTransactions := 0, ROTransactions := 0,
                             RouteAll := 0, RouteMaster := 0, RouteSlave := 0,
                             RWTransactions := 0 }
      Statistics := { ActiveOperations := 0, Connections := 0, MaxConnections := 0,
                      RoutedPackets := 0, TotalConnections := 0 } }

/-- An environment whose upstream answers with `mismatchBody`: well-formed
JSON on which `json.Unmarshal` returns a type error after filling the target. -/
def envMismatch : Env :=
  envOf mismatchBody (.mismatch ⟨[srvSkipped]⟩) (.mismatch ⟨[svcSkipped]⟩)

/-- An environment in which `http.NewRequest` builds the request of the two
paths the program uses and of no other, and the upstream answers with a body
that is not well-formed JSON. -/
def envPicky : Env where
  configUsername := "admin"
  configPassword := "mariadb"
  configHost := "http://127.0.0.1"
  configPort := 8989
  requestOk := fun _ url =>
    url = "http://127.0.0.1:8989/v1/servers" || url = "http://127.0.0.1:8989/v1/services"
  clientDo := fun _ => some [123]
  jsonServer := fun _ => .malformed
  jsonService := fun _ => .malformed

/-! ## The loops, unfolded -/

theorem MustNewConstMetric_one (desc : Desc) (v : Int) (id l : String)
    (h : desc.variableLabels = [l]) :
    MustNewConstMetric desc .GaugeValue (float64 v) [id] = .ret (gauge desc v id) := by
  simp [MustNewConstMetric, NewConstMetric, gauge, h]

theorem server_collectLoop_eq (data : Server) (i : Nat) (ch : List Metric) :
    newServerCollector.collectLoop data i ch
      = .ret (ch ++ (data.Data.drop i).flatMap (serverSamples newServerCollector)) := by
  generalize h : data.Data.length - i = n
  induction n generalizing i ch with
  | zero =>
    have hi : ¬ i < data.Data.length := by omega
    have hd : data.Data.drop i = [] := List.drop_eq_nil_of_le (by omega)
    rw [ServerCollector.collectLoop]
    simp [hi, hd, pure]
  | succ n ih =>
    have hi : i < data.Data.length := by omega
    have hd : data.Data.drop i = data.Data[i] :: data.Data.drop (i + 1) :=
      List.drop_eq_getElem_cons hi
    rw [ServerCollector.collectLoop]
    simp only [hi, dite_true, bind, Outcome.bind]
    simp only [MustNewConstMetric_one newServerCollector.ActiveOperations _ _ "server" rfl,
      MustNewConstMetric_one newServerCollector.ConnectionPoolEmpty _ _ "server" rfl,
      MustNewConstMetric_one newServerCollector.Connections _ _ "server" rfl,
      MustNewConstMetric_one newServerCollector.MaxConnections _ _ "server" rfl,
      MustNewConstMetric_one newServerCollector.MaxPoolSize _ _ "server" rfl,
      MustNewConstMetric_one newServerCollector.PersistentConnections _ _ "server" rfl,
      MustNewConstMetric_one newServerCollector.ReusedConnections _ _ "server" rfl,
      MustNewConstMetric_one newServerCollector.RoutedPackets _ _ "server" rfl,
      MustNewConstMetric_one newServerCollector.TotalConnections _ _ "server" rfl]
    rw [ih (i + 1) _ (by omega), hd]
    simp only [serverSamples, List.flatMap_cons, List.append_assoc, List.cons_append,
      List.nil_append]

theorem service_collectLoop_eq (data : Service) (i : Nat) (ch : List Metric) :
    newServiceCollector.collectLoop data i ch
      = .ret (ch ++ (data.Data.drop i).flatMap (serviceSamples newServiceCollector)) := by
  generalize h : data.Data.length - i = n
  induction n generalizing i ch with
  | zero =>
    have hi : ¬ i < data.Data.length := by omega
    have hd : data.Data.drop i = [] := List.drop_eq_nil_of_le (by omega)
    rw [ServiceCollector.collectLoop]
    simp [hi, hd, pure]
  | succ n ih =>
    have hi : i < data.Data.length := by omega
    have hd : data.Data.drop i = data.Data[i] :: data.Data.drop (i + 1) :=
      List.drop_eq_getElem_cons hi
    rw [ServiceCollector.collectLoop]
    simp only [hi, dite_true, bind, Outcome.bind]
    simp only [MustNewConstMetric_one newServiceCollector.Queries _ _ "service" rfl,
      MustNewConstMetric_one newServiceCollector.ReplayedTransactions _ _ "service" rfl,
      MustNewConstMetric_one newServiceCollector.ROTransactions _ _ "service" rfl,
      MustNewConstMetric_one newServiceCollector.RouteAll _ _ "service" rfl,
      MustNewConstMetric_one newServiceCollector.RouteMaster _ _ "service" rfl,
      MustNewConstMetric_one newServiceCollector.RouteSlave _ _ "service" rfl,
      MustNewConstMetric_one newServiceCollector.RWTransactions _ _ "service" rfl,
      MustNewConstMetric_one newServiceCollector.ActiveOperations _ _ "service" rfl,
      MustNewConstMetric_one newServiceCollector.Connections _ _ "service" rfl,
      MustNewConstMetric_one newServiceCollector.MaxConnections _ _ "service" rfl,
      MustNewConstMetric_one newServiceCollector.RoutedPackets _ _ "service" rfl,
      MustNewConstMetric_one newServiceCollector.TotalConnections _ _ "service" rfl]
    rw [ih (i + 1) _ (by omega), hd]
    simp only [serviceSamples, List.flatMap_cons, List.append_assoc, List.cons_append,
      List.nil_append]

/-- Once `getServer` has returned `data`, `Collect` returns, having sent the
nine samples of every instance, in the order of the instances. -/
theorem server_Collect_eq (env : Env) (data : Server) (h : getServer env = .ret data) :
    newServerCollector.Collect env
      = .ret (data.Data.flatMap (serverSamples newServerCollector)) := by
  simp only [ServerCollector.Collect, h, bind, Outcome.bind]
  rw [server_collectLoop_eq]
  simp

/-- Once `getService` has returned `data`, `Collect` returns, having sent the
twelve samples of every instance, in the order of the instances. -/
theorem service_Collect_eq (env : Env) (data : Service) (h : getService env = .ret data) :
    newServiceCollector.Collect env
      = .ret (data.Data.flatMap (serviceSamples newServiceCollector)) := by
  simp only [ServiceCollector.Collect, h, bind, Outcome.bind]
  rw [service_collectLoop_eq]
  simp

/-! ## Lists made of blocks of equal length -/

theorem length_flatMap_const {α β : Type} (f : α → List β) (k : Nat)
    (hk : ∀ a, (f a).length = k) (l : List α) :
    (l.flatMap f).length = k * l.length := by
  induction l with
  | nil => simp
  | cons a l ih =>
    simp only [List.flatMap_cons, List.length_append, List.length_cons, hk, ih]
    ring

theorem flatMap_block {α β : Type} (f : α → List β) (k : Nat)
    (hk : ∀ a, (f a).length = k) (l : List α) (i : Nat) (hi : i < l.length) :
    ((l.flatMap f).drop (k * i)).take k = f l[i] := by
  induction l generalizing i with
  | nil => simp at hi
  | cons a l ih =>
    cases i with
    | zero =>
      simp only [List.flatMap_cons, Nat.mul_zero, List.drop_zero, List.getElem_cons_zero]
      rw [List.take_append_of_le_length (by rw [hk])]
      exact List.take_of_length_le (by rw [hk])
    | succ i =>
      have hi2 : i < l.length := by simpa using hi
      have e : k * (i + 1) = (f a).length + k * i := by rw [hk]; ring
      simp only [List.flatMap_cons, List.getElem_cons_succ]
      rw [e, List.drop_append]
      exact ih i hi2

theorem serverSamples_length (c : ServerCollector) (d : ServerData) :
    (serverSamples c d).length = 9 := rfl

theorem serviceSamples_length (c : ServiceCollector) (d : ServiceData) :
    (serviceSamples c d).length = 12 := rfl

theorem getServer_envDemo : getServer envDemo = .ret ⟨[srv1]⟩ := rfl

theorem getService_envDemo : getService envDemo = .ret ⟨[svc1]⟩ := rfl

theorem float64_of_lt (v : Int) (h : v.natAbs < 2 ^ 53) : float64 v = v := by
  unfold float64
  exact if_pos h

theorem mem_server_flatMap {c : ServerCollector} {data : Server} {d : ServerData} {m : Metric}
    (hd : d ∈ data.Data) (hm : m ∈ serverSamples c d) :
    m ∈ data.Data.flatMap (serverSamples c) :=
  List.mem_flatMap.2 ⟨d, hd, hm⟩

theorem mem_service_flatMap {c : ServiceCollector} {data : Service} {d : ServiceData}
    {m : Metric} (hd : d ∈ data.Data) (hm : m ∈ serviceSamples c d) :
    m ∈ data.Data.flatMap (serviceSamples c) :=
  List.mem_flatMap.2 ⟨d, hd, hm⟩

/-! ## Field names and descriptor names -/

theorem FieldValue.int_inj {a v : Int} (h : some (FieldValue.int a) = some (FieldValue.int v)) :
    v = a := by
  injection h with h
  injection h with h
  exact h.symm

theorem ServerStatistics.srvField_int (s : ServerStatistics) :
    s.field "active_operations" = some (.int s.ActiveOperations) ∧
    s.field "connection_pool_empty" = some (.int s.ConnectionPoolEmpty) ∧
    s.field "connections" = some (.int s.Connections) ∧
    s.field "max_connections" = some (.int s.MaxConnections) ∧
    s.field "max_pool_size" = some (.int s.MaxPoolSize) ∧
    s.field "persistent_connections" = some (.int s.PersistentConnections) ∧
    s.field "reused_connections" = some (.int s.ReusedConnections) ∧
    s.field "routed_packets" = some (.int s.RoutedPackets) ∧
    s.field "total_connections" = some (.int s.TotalConnections) := by
  simp [ServerStatistics.field]

theorem ServerStatistics.srvField_inv (s : ServerStatistics) (name : String) (v : Int)
    (h : s.field name = some (.int v)) :
    (name = "active_operations" ∧ v = s.ActiveOperations) ∨
    (name = "connection_pool_empty" ∧ v = s.ConnectionPoolEmpty) ∨
    (name = "connections" ∧ v = s.Connections) ∨
    (name = "max_connections" ∧ v = s.MaxConnections) ∨
    (name = "max_pool_size" ∧ v = s.MaxPoolSize) ∨
    (name = "persistent_connections" ∧ v = s.PersistentConnections) ∨
    (name = "reused_connections" ∧ v = s.ReusedConnections) ∨
    (name = "routed_packets" ∧ v = s.RoutedPackets) ∨
    (name = "total_connections" ∧ v = s.TotalConnections) := by
  unfold ServerStatistics.field at h
  by_cases h0 : name = "active_operations"
  · rw [if_pos h0] at h
    exact (Or.inl ⟨h0, FieldValue.int_inj h⟩)
  rw [if_neg h0] at h
  by_cases h1 : name = "adaptive_avg_select_time"
  · rw [if_pos h1] at h
    exact absurd h (by simp)
  rw [if_neg h1] at h
  by_cases h2 : name = "connection_pool_empty"
  · rw [if_pos h2] at h
    exact (Or.inr (Or.inl ⟨h2, FieldValue.int_inj h⟩))
  rw [if_neg h2] at h
  by_cases h3 : name = "connections"
  · rw [if_pos h3] at h
    exact (Or.inr (Or.inr (Or.inl ⟨h3, FieldValue.int_inj h⟩)))
  rw [if_neg h3] at h
  by_cases h4 : name = "max_connections"
  · rw [if_pos h4] at h
    exact (Or.inr (Or.inr (Or.inr (Or.inl ⟨h4, FieldValue.int_inj h⟩))))
  rw [if_neg h4] at h
  by_cases h5 : name = "max_pool_size"
  · rw [if_pos h5] at h
    exact (Or.inr (Or.inr (Or.inr (Or.inr (Or.inl ⟨h5, FieldValue.int_inj h⟩)))))
  rw [if_neg h5] at h
  by_cases h6 : name = "persistent_connections"
  · rw [if_pos h6] at h
    exact (Or.inr (Or.inr (Or.inr (Or.inr (Or.inr (Or.inl ⟨h6, FieldValue.int_inj h⟩))))))
  rw [if_neg h6] at h
  by_cases h7 : name = "reused_connections"
  · rw [if_pos h7] at h
    exact (Or.inr (Or.inr (Or.inr (Or.inr (Or.inr (Or.inr (Or.inl ⟨h7, FieldValue.int_inj h⟩)))))))
  rw [if_neg h7] at h
  by_cases h8 : name = "routed_packets"
  · rw [if_pos h8] at h
    exact (Or.inr (Or.inr (Or.inr (Or.inr (Or.inr (Or.inr (Or.inr (Or.inl ⟨h8, FieldValue.int_inj h⟩))))))))
  rw [if_neg h8] at h
  by_cases h9 : name = "total_connections"
  · rw [if_pos h9] at h
    exact (Or.inr (Or.inr (Or.inr (Or.inr (Or.inr (Or.inr (Or.inr (Or.inr ⟨h9, FieldValue.int_inj h⟩))))))))
  rw [if_neg h9] at h
  exact absurd h (by simp)

theorem server_names :
    "s_" ++ "active_operations" = "s_active_operations" ∧
    "s_" ++ "connection_pool_empty" = "s_connection_pool_empty" ∧
    "s_" ++ "connections" = "s_connections" ∧
    "s_" ++ "max_connections" = "s_max_connections" ∧
    "s_" ++ "max_pool_size" = "s_max_pool_size" ∧
    "s_" ++ "persistent_connections" = "s_persistent_connections" ∧
    "s_" ++ "reused_connections" = "s_reused_connections" ∧
    "s_" ++ "routed_packets" = "s_routed_packets" ∧
    "s_" ++ "total_connections" = "s_total_connections" := by
  decide

theorem serverSamples_sound (d : ServerData) (m : Metric)
    (hm : m ∈ serverSamples newServerCollector d) :
    ∃ (name : String) (v : Int),
      m.desc.fqName = "s_" ++ name ∧
      d.Attributes.Statistics.field name = some (.int v) ∧
      m.val = float64 v ∧ (v.natAbs < 2 ^ 53 → m.val = v) ∧
      m.labelPairs = [("server", d.ID)] := by
  obtain ⟨f0, f1, f2, f3, f4, f5, f6, f7, f8⟩ := d.Attributes.Statistics.srvField_int
  obtain ⟨n0, n1, n2, n3, n4, n5, n6, n7, n8⟩ := server_names
  simp only [serverSamples, List.mem_cons, List.mem_singleton, List.not_mem_nil,
    or_false] at hm
  rcases hm with rfl | rfl | rfl | rfl | rfl | rfl | rfl | rfl | rfl
  · exact ⟨"active_operations", _, by rw [n0]; rfl, f0, rfl, float64_of_lt _, rfl⟩
  · exact ⟨"connection_pool_empty", _, by rw [n1]; rfl, f1, rfl, float64_of_lt _, rfl⟩
  · exact ⟨"connections", _, by rw [n2]; rfl, f2, rfl, float64_of_lt _, rfl⟩
  · exact ⟨"max_connections", _, by rw [n3]; rfl, f3, rfl, float64_of_lt _, rfl⟩
  · exact ⟨"max_pool_size", _, by rw [n4]; rfl, f4, rfl, float64_of_lt _, rfl⟩
  · exact ⟨"persistent_connections", _, by rw [n5]; rfl, f5, rfl, float64_of_lt _, rfl⟩
  · exact ⟨"reused_connections", _, by rw [n6]; rfl, f6, rfl, float64_of_lt _, rfl⟩
  · exact ⟨"routed_packets", _, by rw [n7]; rfl, f7, rfl, float64_of_lt _, rfl⟩
  · exact ⟨"total_connections", _, by rw [n8]; rfl, f8, rfl, float64_of_lt _, rfl⟩

theorem serverSamples_complete (d : ServerData) (name : String) (v : Int)
    (hf : d.Attributes.Statistics.field name = some (.int v)) :
    (⟨NewDesc ("s_" ++ name) "" ["server"], .GaugeValue, float64 v, [("server", d.ID)]⟩
      : Metric) ∈ serverSamples newServerCollector d := by
  obtain ⟨n0, n1, n2, n3, n4, n5, n6, n7, n8⟩ := server_names
  simp only [serverSamples, List.mem_cons, List.mem_singleton]
  rcases d.Attributes.Statistics.srvField_inv name v hf with
    ⟨rfl, rfl⟩ | ⟨rfl, rfl⟩ | ⟨rfl, rfl⟩ | ⟨rfl, rfl⟩ | ⟨rfl, rfl⟩ | ⟨rfl, rfl⟩ | ⟨rfl, rfl⟩ |
    ⟨rfl, rfl⟩ | ⟨rfl, rfl⟩
  · rw [n0]; exact (Or.inl rfl)
  · rw [n1]; exact (Or.inr (Or.inl rfl))
  · rw [n2]; exact (Or.inr (Or.inr (Or.inl rfl)))
  · rw [n3]; exact (Or.inr (Or.inr (Or.inr (Or.inl rfl))))
  · rw [n4]; exact (Or.inr (Or.inr (Or.inr (Or.inr (Or.inl rfl)))))
  · rw [n5]; exact (Or.inr (Or.inr (Or.inr (Or.inr (Or.inr (Or.inl rfl))))))
  · rw [n6]; exact (Or.inr (Or.inr (Or.inr (Or.inr (Or.inr (Or.inr (Or.inl rfl)))))))
  · rw [n7]; exact (Or.inr (Or.inr (Or.inr (Or.inr (Or.inr (Or.inr (Or.inr (Or.inl rfl))))))))
  · rw [n8]; exact (Or.inr (Or.inr (Or.inr (Or.inr (Or.inr (Or.inr (Or.inr (Or.inr (Or.inl rfl)))))))))

theorem ServiceRouterDiagnostics.rdField_int (r : ServiceRouterDiagnostics) :
    r.field "queries" = some (.int r.Queries) ∧
    r.field "replayed_transactions" = some (.int r.ReplayedTransactions) ∧
    r.field "ro_transactions" = some (.int r.ROTransactions) ∧
    r.field "route_all" = some (.int r.RouteAll) ∧
    r.field "route_master" = some (.int r.RouteMaster) ∧
    r.field "route_slave" = some (.int r.RouteSlave) ∧
    r.field "rw_transactions" = some (.int r.RWTransactions) := by
  refine ⟨?_, ?_, ?_, ?_, ?_, ?_, ?_⟩ <;> simp [ServiceRouterDiagnostics.field]

theorem ServiceRouterDiagnostics.rdField_none (r : ServiceRouterDiagnostics) :
    r.field "active_operations" = none ∧
    r.field "connections" = none ∧
    r.field "max_connections" = none ∧
    r.field "routed_packets" = none ∧
    r.field "total_connections" = none := by
  refine ⟨?_, ?_, ?_, ?_, ?_⟩ <;> simp [ServiceRouterDiagnostics.field]

theorem ServiceRouterDiagnostics.rdField_inv (r : ServiceRouterDiagnostics) (name : String)
    (v : Int) (h : r.field name = some (.int v)) :
    (name = "queries" ∧ v = r.Queries) ∨
    (name = "replayed_transactions" ∧ v = r.ReplayedTransactions) ∨
    (name = "ro_transactions" ∧ v = r.ROTransactions) ∨
    (name = "route_all" ∧ v = r.RouteAll) ∨
    (name = "route_master" ∧ v = r.RouteMaster) ∨
    (name = "route_slave" ∧ v = r.RouteSlave) ∨
    (name = "rw_transactions" ∧ v = r.RWTransactions) := by
  unfold ServiceRouterDiagnostics.field at h
  by_cases h0 : name = "queries"
  · rw [if_pos h0] at h
    exact (Or.inl ⟨h0, FieldValue.int_inj h⟩)
  rw [if_neg h0] at h
  by_cases h1 : name = "replayed_transactions"
  · rw [if_pos h1] at h
    exact (Or.inr (Or.inl ⟨h1, FieldValue.int_inj h⟩))
  rw [if_neg h1] at h
  by_cases h2 : name = "ro_transactions"
  · rw [if_pos h2] at h
    exact (Or.inr (Or.inr (Or.inl ⟨h2, FieldValue.int_inj h⟩)))
  rw [if_neg h2] at h
  by_cases h3 : name = "route_all"
  · rw [if_pos h3] at h
    exact (Or.inr (Or.inr (Or.inr (Or.inl ⟨h3, FieldValue.int_inj h⟩))))
  rw [if_neg h3] at h
  by_cases h4 : name = "route_master"
  · rw [if_pos h4] at h
    exact (Or.inr (Or.inr (Or.inr (Or.inr (Or.inl ⟨h4, FieldValue.int_inj h⟩)))))
  rw [if_neg h4] at h
  by_cases h5 : name = "route_slave"
  · rw [if_pos h5] at h
    exact (Or.inr (Or.inr (Or.inr (Or.inr (Or.inr (Or.inl ⟨h5, FieldValue.int_inj h⟩))))))
  rw [if_neg h5] at h
  by_cases h6 : name = "rw_transactions"
  · rw [if_pos h6] at h
    exact (Or.inr (Or.inr (Or.inr (Or.inr (Or.inr (Or.inr ⟨h6, FieldValue.int_inj h⟩))))))
  rw [if_neg h6] at h
  exact absurd h (by simp)

theorem ServiceStatisticts.stField_int (s : ServiceStatisticts) :
    s.field "active_operations" = some (.int s.ActiveOperations) ∧
    s.field "connections" = some (.int s.Connections) ∧
    s.field "max_connections" = some (.int s.MaxConnections) ∧
    s.field "routed_packets" = some (.int s.RoutedPackets) ∧
    s.field "total_connections" = some (.int s.TotalConnections) := by
  refine ⟨?_, ?_, ?_, ?_, ?_⟩ <;> simp [ServiceStatisticts.field]

theorem ServiceStatisticts.stField_none (s : ServiceStatisticts) :
    s.field "queries" = none ∧
    s.field "replayed_transactions" = none ∧
    s.field "ro_transactions" = none ∧
    s.field "route_all" = none ∧
    s.field "route_master" = none ∧
    s.field "route_slave" = none ∧
    s.field "rw_transactions" = none := by
  refine ⟨?_, ?_, ?_, ?_, ?_, ?_, ?_⟩ <;> simp [ServiceStatisticts.field]

theorem ServiceStatisticts.stField_inv (s : ServiceStatisticts) (name : String) (v : Int)
    (h : s.field name = some (.int v)) :
    (name = "active_operations" ∧ v = s.ActiveOperations) ∨
    (name = "connections" ∧ v = s.Connections) ∨
    (name = "max_connections" ∧ v = s.MaxConnections) ∨
    (name = "routed_packets" ∧ v = s.RoutedPackets) ∨
    (name = "total_connections" ∧ v = s.TotalConnections) := by
  unfold ServiceStatisticts.field at h
  by_cases h0 : name = "active_operations"
  · rw [if_pos h0] at h
    exact (Or.inl ⟨h0, FieldValue.int_inj h⟩)
  rw [if_neg h0] at h
  by_cases h1 : name = "connections"
  · rw [if_pos h1] at h
    exact (Or.inr (Or.inl ⟨h1, FieldValue.int_inj h⟩))
  rw [if_neg h1] at h
  by_cases h2 : name = "max_connections"
  · rw [if_pos h2] at h
    exact (Or.inr (Or.inr (Or.inl ⟨h2, FieldValue.int_inj h⟩)))
  rw [if_neg h2] at h
  by_cases h3 : name = "routed_packets"
  · rw [if_pos h3] at h
    exact (Or.inr (Or.inr (Or.inr (Or.inl ⟨h3, FieldValue.int_inj h⟩))))
  rw [if_neg h3] at h
  by_cases h4 : name = "total_connections"
  · rw [if_pos h4] at h
    exact (Or.inr (Or.inr (Or.inr (Or.inr ⟨h4, FieldValue.int_inj h⟩))))
  rw [if_neg h4] at h
  exact absurd h (by simp)

theorem service_names :
    "r_" ++ "queries" = "r_queries" ∧
    "r_" ++ "replayed_transactions" = "r_replayed_transactions" ∧
    "r_" ++ "ro_transactions" = "r_ro_transactions" ∧
    "r_" ++ "route_all" = "r_route_all" ∧
    "r_" ++ "route_master" = "r_route_master" ∧
    "r_" ++ "route_slave" = "r_route_slave" ∧
    "r_" ++ "rw_transactions" = "r_rw_transactions" ∧
    "r_" ++ "active_operations" = "r_active_operations" ∧
    "r_" ++ "connections" = "r_connections" ∧
    "r_" ++ "max_connections" = "r_max_connections" ∧
    "r_" ++ "routed_packets" = "r_routed_packets" ∧
    "r_" ++ "total_connections" = "r_total_connections" := by
  decide

theorem serviceSamples_sound (d : ServiceData) (m : Metric)
    (hm : m ∈ serviceSamples newServiceCollector d) :
    ∃ (name : String) (v : Int),
      m.desc.fqName = "r_" ++ name ∧
      m.val = float64 v ∧ (v.natAbs < 2 ^ 53 → m.val = v) ∧
      m.labelPairs = [("service", d.ID)] ∧
      ((d.Attributes.RouterDiagnostics.field name = some (.int v) ∧
          d.Attributes.Statistics.field name = none) ∨
        (d.Attributes.RouterDiagnostics.field name = none ∧
          d.Attributes.Statistics.field name = some (.int v))) := by
  obtain ⟨a0, a1, a2, a3, a4, a5, a6⟩ := d.Attributes.RouterDiagnostics.rdField_int
  obtain ⟨b0, b1, b2, b3, b4⟩ := d.Attributes.Statistics.stField_int
  obtain ⟨c0, c1, c2, c3, c4⟩ := d.Attributes.RouterDiagnostics.rdField_none
  obtain ⟨d0, d1, d2, d3, d4, d5, d6⟩ := d.Attributes.Statistics.stField_none
  obtain ⟨n0, n1, n2, n3, n4, n5, n6, n7, n8, n9, n10, n11⟩ := service_names
  simp only [serviceSamples, List.mem_cons, List.mem_singleton, List.not_mem_nil,
    or_false] at hm
  rcases hm with rfl | rfl | rfl | rfl | rfl | rfl | rfl | rfl | rfl | rfl | rfl | rfl
  · exact ⟨"queries", _, by rw [n0]; rfl, rfl, float64_of_lt _, rfl, Or.inl ⟨a0, d0⟩⟩
  · exact ⟨"replayed_transactions", _, by rw [n1]; rfl, rfl, float64_of_lt _, rfl, Or.inl ⟨a1, d1⟩⟩
  · exact ⟨"ro_transactions", _, by rw [n2]; rfl, rfl, float64_of_lt _, rfl, Or.inl ⟨a2, d2⟩⟩
  · exact ⟨"route_all", _, by rw [n3]; rfl, rfl, float64_of_lt _, rfl, Or.inl ⟨a3, d3⟩⟩
  · exact ⟨"route_master", _, by rw [n4]; rfl, rfl, float64_of_lt _, rfl, Or.inl ⟨a4, d4⟩⟩
  · exact ⟨"route_slave", _, by rw [n5]; rfl, rfl, float64_of_lt _, rfl, Or.inl ⟨a5, d5⟩⟩
  · exact ⟨"rw_transactions", _, by rw [n6]; rfl, rfl, float64_of_lt _, rfl, Or.inl ⟨a6, d6⟩⟩
  · exact ⟨"active_operations", _, by rw [n7]; rfl, rfl, float64_of_lt _, rfl, Or.inr ⟨c0, b0⟩⟩
  · exact ⟨"connections", _, by rw [n8]; rfl, rfl, float64_of_lt _, rfl, Or.inr ⟨c1, b1⟩⟩
  · exact ⟨"max_connections", _, by rw [n9]; rfl, rfl, float64_of_lt _, rfl, Or.inr ⟨c2, b2⟩⟩
  · exact ⟨"routed_packets", _, by rw [n10]; rfl, rfl, float64_of_lt _, rfl, Or.inr ⟨c3, b3⟩⟩
  · exact ⟨"total_connections", _, by rw [n11]; rfl, rfl, float64_of_lt _, rfl, Or.inr ⟨c4, b4⟩⟩

theorem serviceSamples_complete (d : ServiceData) (name : String) (v : Int)
    (hf : d.Attributes.RouterDiagnostics.field name = some (.int v) ∨
      d.Attributes.Statistics.field name = some (.int v)) :
    (⟨NewDesc ("r_" ++ name) "" ["service"], .GaugeValue, float64 v, [("service", d.ID)]⟩
      : Metric) ∈ serviceSamples newServiceCollector d := by
  obtain ⟨n0, n1, n2, n3, n4, n5, n6, n7, n8, n9, n10, n11⟩ := service_names
  simp only [serviceSamples, List.mem_cons, List.mem_singleton]
  rcases hf with hf | hf
  · rcases d.Attributes.RouterDiagnostics.rdField_inv name v hf with
      ⟨rfl, rfl⟩ | ⟨rfl, rfl⟩ | ⟨rfl, rfl⟩ | ⟨rfl, rfl⟩ | ⟨rfl, rfl⟩ | ⟨rfl, rfl⟩ | ⟨rfl, rfl⟩
    · rw [n0]; exact (Or.inl rfl)
    · rw [n1]; exact (Or.inr (Or.inl rfl))
    · rw [n2]; exact (Or.inr (Or.inr (Or.inl rfl)))
    · rw [n3]; exact (Or.inr (Or.inr (Or.inr (Or.inl rfl))))
    · rw [n4]; exact (Or.inr (Or.inr (Or.inr (Or.inr (Or.inl rfl)))))
    · rw [n5]; exact (Or.inr (Or.inr (Or.inr (Or.inr (Or.inr (Or.inl rfl))))))
    · rw [n6]; exact (Or.inr (Or.inr (Or.inr (Or.inr (Or.inr (Or.inr (Or.inl rfl)))))))
  · rcases d.Attributes.Statistics.stField_inv name v hf with
      ⟨rfl, rfl⟩ | ⟨rfl, rfl⟩ | ⟨rfl, rfl⟩ | ⟨rfl, rfl⟩ | ⟨rfl, rfl⟩
    · rw [n7]; exact (Or.inr (Or.inr (Or.inr (Or.inr (Or.inr (Or.inr (Or.inr (Or.inl rfl))))))))
    · rw [n8]; exact (Or.inr (Or.inr (Or.inr (Or.inr (Or.inr (Or.inr (Or.inr (Or.inr (Or.inl rfl)))))))))
    · rw [n9]; exact (Or.inr (Or.inr (Or.inr (Or.inr (Or.inr (Or.inr (Or.inr (Or.inr (Or.inr (Or.inl rfl))))))))))
    · rw [n10]; exact (Or.inr (Or.inr (Or.inr (Or.inr (Or.inr (Or.inr (Or.inr (Or.inr (Or.inr (Or.inr (Or.inl rfl)))))))))))
    · rw [n11]; exact (Or.inr (Or.inr (Or.inr (Or.inr (Or.inr (Or.inr (Or.inr (Or.inr (Or.inr (Or.inr (Or.inr (Or.inl rfl))))))))))))

theorem serviceSamples_names (d : ServiceData) :
    (serviceSamples newServiceCollector d).map (fun m => m.desc.fqName)
      = ["r_queries", "r_replayed_transactions", "r_ro_transactions", "r_route_all",
         "r_route_master", "r_route_slave", "r_rw_transactions", "r_active_operations",
         "r_connections", "r_max_connections", "r_routed_packets", "r_total_connections"] :=
  rfl

/-! ## Samples and the select time, samples and IDs -/

theorem serverSamples_withSelectTime (c : ServerCollector) (d : ServerData) (t : String) :
    serverSamples c (d.withSelectTime t) = serverSamples c d := rfl

theorem flatMap_serverSamples_erase (c : ServerCollector) (l : List ServerData) :
    (l.map (fun d => d.withSelectTime "")).flatMap (serverSamples c)
      = l.flatMap (serverSamples c) := by
  induction l with
  | nil => rfl
  | cons a l ih =>
    simp only [List.map_cons, List.flatMap_cons, ih, serverSamples_withSelectTime]

theorem serverSamples_names (d : ServerData) :
    (serverSamples newServerCollector d).map (fun m => m.desc.fqName)
      = ["s_active_operations", "s_connection_pool_empty", "s_connections",
         "s_max_connections", "s_max_pool_size", "s_persistent_connections",
         "s_reused_connections", "s_routed_packets", "s_total_connections"] :=
  rfl

theorem serverSamples_labels (d : ServerData) (m : Metric)
    (hm : m ∈ serverSamples newServerCollector d) : m.labelPairs = [("server", d.ID)] := by
  simp only [serverSamples, List.mem_cons, List.mem_singleton, List.not_mem_nil,
    or_false] at hm
  rcases hm with rfl | rfl | rfl | rfl | rfl | rfl | rfl | rfl | rfl <;> rfl

theorem serviceSamples_labels (d : ServiceData) (m : Metric)
    (hm : m ∈ serviceSamples newServiceCollector d) : m.labelPairs = [("service", d.ID)] := by
  simp only [serviceSamples, List.mem_cons, List.mem_singleton, List.not_mem_nil,
    or_false] at hm
  rcases hm with rfl | rfl | rfl | rfl | rfl | rfl | rfl | rfl | rfl | rfl | rfl | rfl <;> rfl

theorem serverSamples_key_nodup (d : ServerData) :
    ((serverSamples newServerCollector d).map Metric.key).Nodup := by
  apply List.Nodup.of_map (fun k => k.1.fqName)
  rw [List.map_map]
  exact (serverSamples_names d) ▸ (by decide)

theorem serviceSamples_key_nodup (d : ServiceData) :
    ((serviceSamples newServiceCollector d).map Metric.key).Nodup := by
  apply List.Nodup.of_map (fun k => k.1.fqName)
  rw [List.map_map]
  exact (serviceSamples_names d) ▸ (by decide)

/-- Blocks of keys are duplicate-free when every block is and blocks of
different instances carry different IDs. -/
theorem keys_nodup_of_ids {α : Type} (f : α → List Metric) (id : α → String) (label : String)
    (hblock : ∀ a, ((f a).map Metric.key).Nodup)
    (hlabel : ∀ a, ∀ m ∈ f a, m.labelPairs = [(label, id a)])
    (l : List α) (hl : (l.map id).Nodup) :
    ((l.flatMap f).map Metric.key).Nodup := by
  rw [List.map_flatMap]
  refine List.nodup_flatMap.2 ⟨fun a _ => hblock a, ?_⟩
  have hp : l.Pairwise (fun a b => id a ≠ id b) := List.pairwise_map.1 hl
  refine hp.imp ?_
  intro a b hab
  show List.Disjoint ((f a).map Metric.key) ((f b).map Metric.key)
  intro k hka hkb
  obtain ⟨ma, hma, rfl⟩ := List.mem_map.1 hka
  obtain ⟨mb, hmb, hkey⟩ := List.mem_map.1 hkb
  have e : mb.labelPairs = ma.labelPairs := congrArg Prod.snd hkey
  rw [hlabel a ma hma, hlabel b mb hmb] at e
  simp only [List.cons.injEq, Prod.mk.injEq, true_and, and_true] at e
  exact hab e.symm

/-- Instances have different IDs when the blocks of keys are duplicate-free and
two instances of one ID share a key. -/
theorem ids_nodup_of_keys {α : Type} (f : α → List Metric) (id : α → String)
    (hshare : ∀ a b, id a = id b →
      ∃ k, k ∈ (f a).map Metric.key ∧ k ∈ (f b).map Metric.key)
    (l : List α) (hk : ((l.flatMap f).map Metric.key).Nodup) :
    (l.map id).Nodup := by
  rw [List.map_flatMap] at hk
  have hp := (List.nodup_flatMap.1 hk).2
  refine List.pairwise_map.2 (hp.imp ?_)
  intro a b hdis hab
  obtain ⟨k, hka, hkb⟩ := hshare a b hab
  exact hdis hka hkb

/-! ## getHttp and the decoders -/

theorem getHttp_of_response (env : Env) (path : String) (body : List UInt8)
    (hreq : env.requestOk "GET" (urlOf env path) = true)
    (hdo : env.clientDo (requestOf env path) = some body) :
    getHttp env path = .ret body := by
  unfold requestOf at hdo
  unfold urlOf at hreq hdo
  simp only [getHttp, NewRequest, hreq, if_true, hdo]

theorem getHttp_of_error (env : Env) (path : String)
    (hreq : env.requestOk "GET" (urlOf env path) = true)
    (hdo : env.clientDo (requestOf env path) = none) :
    getHttp env path = .fatal := by
  unfold requestOf at hdo
  unfold urlOf at hreq hdo
  simp only [getHttp, NewRequest, hreq, if_true, hdo]

theorem getServer_of_body (env : Env) (body : List UInt8)
    (h : getHttp env "servers" = .ret body) :
    getServer env = .ret (Unmarshal (env.jsonServer body) Server.zero).1 := by
  simp only [getServer, h, bind, Outcome.bind, pure]

theorem getService_of_body (env : Env) (body : List UInt8)
    (h : getHttp env "services" = .ret body) :
    getService env = .ret (Unmarshal (env.jsonService body) Service.zero).1 := by
  simp only [getService, h, bind, Outcome.bind, pure]

/-- A type error on well-formed JSON is dropped as well, and what was decoded
is returned. -/
theorem getServer_of_mismatch (env : Env) (body : List UInt8) (v : Server)
    (h : getHttp env "servers" = .ret body) (hm : env.jsonServer body = .mismatch v) :
    (Unmarshal (env.jsonServer body) Server.zero).2 = some .UnmarshalTypeError ∧
    getServer env = .ret v := by
  rw [getServer_of_body env body h, hm]
  exact ⟨rfl, rfl⟩

theorem server_Collect_of_fatal (env : Env) (h : getHttp env "servers" = .fatal) :
    newServerCollector.Collect env = .fatal := by
  simp only [ServerCollector.Collect, getServer, h, bind, Outcome.bind]

theorem service_Collect_of_fatal (env : Env) (h : getHttp env "services" = .fatal) :
    newServiceCollector.Collect env = .fatal := by
  simp only [ServiceCollector.Collect, getService, h, bind, Outcome.bind]

theorem server_descs (d : ServerData) :
    (serverSamples newServerCollector d).map (fun m => m.desc)
      = newServerCollector.Describe.filter
          (fun x => decide (x ≠ newServerCollector.AdaptiveAvgSelectTime)) := by
  have e : newServerCollector.Describe.filter
      (fun x => decide (x ≠ newServerCollector.AdaptiveAvgSelectTime))
      = [newServerCollector.ActiveOperations, newServerCollector.ConnectionPoolEmpty,
         newServerCollector.Connections, newServerCollector.MaxConnections,
         newServerCollector.MaxPoolSize, newServerCollector.PersistentConnections,
         newServerCollector.ReusedConnections, newServerCollector.RoutedPackets,
         newServerCollector.TotalConnections] := by decide
  rw [e]
  rfl

theorem service_descs (d : ServiceData) :
    (serviceSamples newServiceCollector d).map (fun m => m.desc)
      = newServiceCollector.Describe := rfl

/-! ## Claims -/

/-- C1: once the servers response is decoded into `data` with `n` instances,
`ServerCollector.Collect` returns having sent exactly `9 * n` samples; the
samples of instance `i` are the nine at positions `9 * i .. 9 * i + 8`, and each
of them carries the instance's ID as the value of its single label `server`.
With no instance nothing is sent. -/
theorem server_collect_nine_per_instance (env : Env) (data : Server)
    (h : getServer env = .ret data) :
    ∃ ms, newServerCollector.Collect env = .ret ms ∧
      ms.length = 9 * data.Data.length ∧
      (data.Data = [] → ms = []) ∧
      ∀ (i : Nat) (hi : i < data.Data.length),
        ((ms.drop (9 * i)).take 9).length = 9 ∧
        ∀ m ∈ (ms.drop (9 * i)).take 9, m.labelPairs = [("server", data.Data[i].ID)] := by
  refine ⟨_, server_Collect_eq env data h, ?_, ?_, ?_⟩
  · exact length_flatMap_const _ 9 (serverSamples_length _) _
  · intro h0
    simp [h0]
  · intro i hi
    rw [flatMap_block _ 9 (serverSamples_length _) _ i hi]
    refine ⟨rfl, ?_⟩
    intro m hm
    simp only [serverSamples, List.mem_cons, List.mem_singleton, List.not_mem_nil,
      or_false] at hm
    rcases hm with rfl | rfl | rfl | rfl | rfl | rfl | rfl | rfl | rfl <;> rfl

theorem server_collect_nine_per_instance_witness :
    getServer envDemo = .ret ⟨[srv1]⟩ ∧
    ∃ ms, newServerCollector.Collect envDemo = .ret ms ∧
      ms.length = 9 * (Server.mk [srv1]).Data.length ∧
      ((Server.mk [srv1]).Data = [] → ms = []) ∧
      ∀ (i : Nat) (hi : i < (Server.mk [srv1]).Data.length),
        ((ms.drop (9 * i)).take 9).length = 9 ∧
        ∀ m ∈ (ms.drop (9 * i)).take 9,
          m.labelPairs = [("server", (Server.mk [srv1]).Data[i].ID)] :=
  ⟨getServer_envDemo, server_collect_nine_per_instance envDemo ⟨[srv1]⟩ getServer_envDemo⟩

/-- C2: once the services response is decoded into `data` with `n` instances,
`ServiceCollector.Collect` returns having sent exactly `12 * n` samples; the
samples of instance `i` are the twelve at positions `12 * i .. 12 * i + 11`,
each carries the instance's ID as the value of its single label `service`, the
first seven have the values of the router_diagnostics group and the last five
those of the statistics group. -/
theorem service_collect_twelve_per_instance (env : Env) (data : Service)
    (h : getService env = .ret data) :
    ∃ ms, newServiceCollector.Collect env = .ret ms ∧
      ms.length = 12 * data.Data.length ∧
      ∀ (i : Nat) (hi : i < data.Data.length),
        ((ms.drop (12 * i)).take 12).length = 12 ∧
        (∀ m ∈ (ms.drop (12 * i)).take 12, m.labelPairs = [("service", data.Data[i].ID)]) ∧
        (((ms.drop (12 * i)).take 12).take 7).map (fun m => m.val)
          = [float64 data.Data[i].Attributes.RouterDiagnostics.Queries,
             float64 data.Data[i].Attributes.RouterDiagnostics.ReplayedTransactions,
             float64 data.Data[i].Attributes.RouterDiagnostics.ROTransactions,
             float64 data.Data[i].Attributes.RouterDiagnostics.RouteAll,
             float64 data.Data[i].Attributes.RouterDiagnostics.RouteMaster,
             float64 data.Data[i].Attributes.RouterDiagnostics.RouteSlave,
             float64 data.Data[i].Attributes.RouterDiagnostics.RWTransactions] ∧
        (((ms.drop (12 * i)).take 12).drop 7).map (fun m => m.val)
          = [float64 data.Data[i].Attributes.Statistics.ActiveOperations,
             float64 data.Data[i].Attributes.Statistics.Connections,
             float64 data.Data[i].Attributes.Statistics.MaxConnections,
             float64 data.Data[i].Attributes.Statistics.RoutedPackets,
             float64 data.Data[i].Attributes.Statistics.TotalConnections] := by
  refine ⟨_, service_Collect_eq env data h, ?_, ?_⟩
  · exact length_flatMap_const _ 12 (serviceSamples_length _) _
  · intro i hi
    rw [flatMap_block _ 12 (serviceSamples_length _) _ i hi]
    refine ⟨rfl, ?_, rfl, rfl⟩
    intro m hm
    simp only [serviceSamples, List.mem_cons, List.mem_singleton, List.not_mem_nil,
      or_false] at hm
    rcases hm with rfl | rfl | rfl | rfl | rfl | rfl | rfl | rfl | rfl | rfl | rfl | rfl <;> rfl

theorem service_collect_twelve_per_instance_witness :
    getService envDemo = .ret ⟨[svc1]⟩ ∧
    ∃ ms, newServiceCollector.Collect envDemo = .ret ms ∧ ms.length = 12 :=
  ⟨getService_envDemo,
    (service_collect_twelve_per_instance envDemo ⟨[svc1]⟩ getService_envDemo).imp
      fun _ hms => ⟨hms.1, hms.2.1⟩⟩

/-- C3: once the servers response is decoded into `data`, every sample
`ServerCollector.Collect` sends belongs to an instance `d` and to a JSON field
name `name` of its statistics: the descriptor is named `s_` followed by `name`,
the value is `float64` of that integer field (the field itself below `2^53`), the
label is the instance's ID; and every integer field of every instance has its
sample. In particular an instance `srv1` with 5 connections and at most 100
yields `s_connections` with value 5 and `s_max_connections` with value 100, both
labelled `server="srv1"`. -/
theorem server_sample_is_named_field (env : Env) (data : Server)
    (h : getServer env = .ret data) :
    ∃ ms, newServerCollector.Collect env = .ret ms ∧
      (∀ m ∈ ms, ∃ d ∈ data.Data, ∃ (name : String) (v : Int),
        m.desc.fqName = "s_" ++ name ∧
        d.Attributes.Statistics.field name = some (.int v) ∧
        m.val = float64 v ∧ (v.natAbs < 2 ^ 53 → m.val = v) ∧
        m.labelPairs = [("server", d.ID)]) ∧
      (∀ d ∈ data.Data, ∀ (name : String) (v : Int),
        d.Attributes.Statistics.field name = some (.int v) →
        (⟨NewDesc ("s_" ++ name) "" ["server"], .GaugeValue, float64 v, [("server", d.ID)]⟩
          : Metric) ∈ ms) ∧
      (∀ d ∈ data.Data, d.ID = "srv1" → d.Attributes.Statistics.Connections = 5 →
        d.Attributes.Statistics.MaxConnections = 100 →
        (⟨NewDesc "s_connections" "" ["server"], .GaugeValue, 5, [("server", "srv1")]⟩
          : Metric) ∈ ms ∧
        (⟨NewDesc "s_max_connections" "" ["server"], .GaugeValue, 100, [("server", "srv1")]⟩
          : Metric) ∈ ms) := by
  refine ⟨_, server_Collect_eq env data h, ?_, ?_, ?_⟩
  · intro m hm
    obtain ⟨d, hd, hmd⟩ := List.mem_flatMap.1 hm
    exact ⟨d, hd, serverSamples_sound d m hmd⟩
  · intro d hd name v hf
    exact mem_server_flatMap hd (serverSamples_complete d name v hf)
  · intro d hd hid hc hmc
    have e5 : float64 5 = 5 := float64_of_lt 5 (by decide)
    have e100 : float64 100 = 100 := float64_of_lt 100 (by decide)
    have c1 := serverSamples_complete d "connections" 5
      (by rw [d.Attributes.Statistics.srvField_int.2.2.1, hc])
    have c2 := serverSamples_complete d "max_connections" 100
      (by rw [d.Attributes.Statistics.srvField_int.2.2.2.1, hmc])
    rw [server_names.2.2.1, e5, hid] at c1
    rw [server_names.2.2.2.1, e100, hid] at c2
    exact ⟨mem_server_flatMap hd c1, mem_server_flatMap hd c2⟩

theorem server_sample_is_named_field_witness :
    getServer envDemo = .ret ⟨[srv1]⟩ ∧
    ∃ ms, newServerCollector.Collect envDemo = .ret ms ∧
      (⟨NewDesc "s_connections" "" ["server"], .GaugeValue, 5, [("server", "srv1")]⟩
        : Metric) ∈ ms ∧
      (⟨NewDesc "s_max_connections" "" ["server"], .GaugeValue, 100, [("server", "srv1")]⟩
        : Metric) ∈ ms :=
  ⟨getServer_envDemo,
    (server_sample_is_named_field envDemo ⟨[srv1]⟩ getServer_envDemo).imp
      fun _ hms => ⟨hms.1, hms.2.2.2 srv1 (List.mem_singleton.2 rfl) rfl rfl rfl⟩⟩

/-- C4: once the services response is decoded into `data`, every sample
`ServiceCollector.Collect` sends belongs to an instance `d` and to a JSON field
name `name` found in exactly one of the two groups of `d`: the descriptor is
named `r_` followed by `name`, the value is `float64` of that one integer field
(the field itself below `2^53`) and the label is the instance's ID; every
integer field of either group has its sample; and the twelve samples of one
service use the twelve descriptor names once each, router_diagnostics first. -/
theorem service_sample_is_named_field (env : Env) (data : Service)
    (h : getService env = .ret data) :
    ∃ ms, newServiceCollector.Collect env = .ret ms ∧
      (∀ m ∈ ms, ∃ d ∈ data.Data, ∃ (name : String) (v : Int),
        m.desc.fqName = "r_" ++ name ∧
        m.val = float64 v ∧ (v.natAbs < 2 ^ 53 → m.val = v) ∧
        m.labelPairs = [("service", d.ID)] ∧
        ((d.Attributes.RouterDiagnostics.field name = some (.int v) ∧
            d.Attributes.Statistics.field name = none) ∨
          (d.Attributes.RouterDiagnostics.field name = none ∧
            d.Attributes.Statistics.field name = some (.int v)))) ∧
      (∀ d ∈ data.Data, ∀ (name : String) (v : Int),
        (d.Attributes.RouterDiagnostics.field name = some (.int v) ∨
          d.Attributes.Statistics.field name = some (.int v)) →
        (⟨NewDesc ("r_" ++ name) "" ["service"], .GaugeValue, float64 v, [("service", d.ID)]⟩
          : Metric) ∈ ms) ∧
      (∀ (i : Nat), i < data.Data.length →
        ((ms.drop (12 * i)).take 12).map (fun m => m.desc.fqName)
          = ["r_queries", "r_replayed_transactions", "r_ro_transactions", "r_route_all",
             "r_route_master", "r_route_slave", "r_rw_transactions", "r_active_operations",
             "r_connections", "r_max_connections", "r_routed_packets",
             "r_total_connections"]) := by
  refine ⟨_, service_Collect_eq env data h, ?_, ?_, ?_⟩
  · intro m hm
    obtain ⟨d, hd, hmd⟩ := List.mem_flatMap.1 hm
    exact ⟨d, hd, serviceSamples_sound d m hmd⟩
  · intro d hd name v hf
    exact mem_service_flatMap hd (serviceSamples_complete d name v hf)
  · intro i hi
    rw [flatMap_block _ 12 (serviceSamples_length _) _ i hi]
    exact serviceSamples_names _

theorem service_sample_is_named_field_witness :
    getService envDemo = .ret ⟨[svc1]⟩ ∧
    ∃ ms, newServiceCollector.Collect envDemo = .ret ms ∧
      (⟨NewDesc ("r_" ++ "route_master") "" ["service"], .GaugeValue, float64 5,
        [("service", "RW-Split")]⟩ : Metric) ∈ ms :=
  ⟨getService_envDemo,
    (service_sample_is_named_field envDemo ⟨[svc1]⟩ getService_envDemo).imp
      fun _ hms => ⟨hms.1, hms.2.2.1 svc1 (List.mem_singleton.2 rfl) "route_master" 5
        (Or.inl (svc1.Attributes.RouterDiagnostics.rdField_int.2.2.2.2.1))⟩⟩

/-- C5: whatever the adaptive_avg_select_time fields hold, no sample of
`ServerCollector.Collect` uses the descriptor `s_adaptive_avg_select_time`, and
two decoded responses that agree on everything but those fields make `Collect`
send the same samples. -/
theorem server_select_time_not_exported (env env2 : Env) (data data2 : Server)
    (h : getServer env = .ret data) (h2 : getServer env2 = .ret data2)
    (hsame : data2.Data.map (fun d => d.withSelectTime "")
      = data.Data.map (fun d => d.withSelectTime "")) :
    ∃ ms, newServerCollector.Collect env = .ret ms ∧
      newServerCollector.Collect env2 = .ret ms ∧
      ∀ m ∈ ms, m.desc ≠ newServerCollector.AdaptiveAvgSelectTime ∧
        m.desc.fqName ≠ "s_adaptive_avg_select_time" := by
  refine ⟨_, server_Collect_eq env data h, ?_, ?_⟩
  · rw [server_Collect_eq env2 data2 h2, ← flatMap_serverSamples_erase _ data2.Data, hsame,
      flatMap_serverSamples_erase]
  · intro m hm
    obtain ⟨d, _, hmd⟩ := List.mem_flatMap.1 hm
    have hn : m.desc.fqName ∈ (serverSamples newServerCollector d).map (fun m => m.desc.fqName) :=
      List.mem_map.2 ⟨m, hmd, rfl⟩
    rw [serverSamples_names] at hn
    have hne : m.desc.fqName ≠ "s_adaptive_avg_select_time" := by
      intro e
      rw [e] at hn
      exact absurd hn (by decide)
    exact ⟨fun e => hne (by rw [e]; rfl), hne⟩

theorem server_select_time_not_exported_witness :
    getServer envDemo = .ret ⟨[srv1]⟩ ∧
    getServer (envOf [] (.decoded ⟨[srv1.withSelectTime ""]⟩) (.decoded ⟨[svc1]⟩))
      = .ret ⟨[srv1.withSelectTime ""]⟩ ∧
    ∃ ms, newServerCollector.Collect envDemo = .ret ms ∧
      newServerCollector.Collect
        (envOf [] (.decoded ⟨[srv1.withSelectTime ""]⟩) (.decoded ⟨[svc1]⟩)) = .ret ms ∧
      ∀ m ∈ ms, m.desc ≠ newServerCollector.AdaptiveAvgSelectTime ∧
        m.desc.fqName ≠ "s_adaptive_avg_select_time" :=
  ⟨rfl, rfl,
    server_select_time_not_exported envDemo
      (envOf [] (.decoded ⟨[srv1.withSelectTime ""]⟩) (.decoded ⟨[svc1]⟩))
      ⟨[srv1]⟩ ⟨[srv1.withSelectTime ""]⟩ rfl rfl rfl⟩

/-- C6: `ServerCollector.Describe` sends exactly 10 descriptors, each with the
single label `server` and a name that starts with `s_`; `ServiceCollector.Describe`
sends exactly 12, each with the single label `service` and a name that starts
with `r_`; the 22 names are pairwise distinct, and no descriptor is in both
registries. -/
theorem describe_registries :
    newServerCollector.Describe.length = 10 ∧
    (∀ d ∈ newServerCollector.Describe,
      d.variableLabels = ["server"] ∧ "s_".toList <+: d.fqName.toList) ∧
    newServiceCollector.Describe.length = 12 ∧
    (∀ d ∈ newServiceCollector.Describe,
      d.variableLabels = ["service"] ∧ "r_".toList <+: d.fqName.toList) ∧
    ((newServerCollector.Describe ++ newServiceCollector.Describe).map
      (fun d => d.fqName)).length = 22 ∧
    ((newServerCollector.Describe ++ newServiceCollector.Describe).map
      (fun d => d.fqName)).Nodup ∧
    (∀ d ∈ newServerCollector.Describe, d ∉ newServiceCollector.Describe) := by
  decide

/-- C7, as stated, fails: a decoded servers response with two instances of ID
`srv1` makes `ServerCollector.Collect` send `s_active_operations` with the label
`server="srv1"` twice (positions 0 and 9), and `s_connections` with that label
once with value 5 and once with value 7. -/
theorem collect_repeats_pair_on_equal_ids :
    getServer envDup = .ret ⟨[srv1, srv1b]⟩ ∧
    ∃ ms, newServerCollector.Collect envDup = .ret ms ∧
      ¬ (ms.map Metric.key).Nodup ∧
      ∃ a b, ms[0]? = some a ∧ ms[9]? = some b ∧
        a.desc = b.desc ∧ a.labelPairs = b.labelPairs ∧
      ∃ c e, ms[2]? = some c ∧ ms[11]? = some e ∧
        c.desc = e.desc ∧ c.labelPairs = e.labelPairs ∧ c.val = 5 ∧ e.val = 7 := by
  refine ⟨rfl, _, server_Collect_eq envDup ⟨[srv1, srv1b]⟩ rfl, ?_, ?_⟩
  · decide
  · exact ⟨_, _, rfl, rfl, rfl, rfl, _, _, rfl, rfl, rfl, rfl, by decide, by decide⟩

/-- C7, amended: the samples one `Collect` call sends contain at most one
sample per (descriptor, label value) pair exactly when the instances of the
decoded response have pairwise distinct IDs, for the server and for the service
collector; so with distinct IDs no two samples share descriptor and label
value. -/
theorem one_sample_per_pair_of_distinct_ids (env : Env) :
    (∀ data : Server, getServer env = .ret data →
      ∃ ms, newServerCollector.Collect env = .ret ms ∧
        ((data.Data.map (fun d => d.ID)).Nodup → (ms.map Metric.key).Nodup) ∧
        ((ms.map Metric.key).Nodup → (data.Data.map (fun d => d.ID)).Nodup)) ∧
    (∀ data : Service, getService env = .ret data →
      ∃ ms, newServiceCollector.Collect env = .ret ms ∧
        ((data.Data.map (fun d => d.ID)).Nodup → (ms.map Metric.key).Nodup) ∧
        ((ms.map Metric.key).Nodup → (data.Data.map (fun d => d.ID)).Nodup)) := by
  constructor
  · intro data h
    refine ⟨_, server_Collect_eq env data h, ?_, ?_⟩
    · exact keys_nodup_of_ids _ (fun d => d.ID) "server" serverSamples_key_nodup
        serverSamples_labels data.Data
    · refine ids_nodup_of_keys _ (fun d => d.ID) ?_ data.Data
      intro a b hab
      have hab2 : a.ID = b.ID := hab
      refine ⟨(newServerCollector.ActiveOperations, [("server", a.ID)]), ?_, ?_⟩
      · exact List.mem_map.2 ⟨_, List.mem_cons_self _ _, rfl⟩
      · rw [hab2]
        exact List.mem_map.2 ⟨_, List.mem_cons_self _ _, rfl⟩
  · intro data h
    refine ⟨_, service_Collect_eq env data h, ?_, ?_⟩
    · exact keys_nodup_of_ids _ (fun d => d.ID) "service" serviceSamples_key_nodup
        serviceSamples_labels data.Data
    · refine ids_nodup_of_keys _ (fun d => d.ID) ?_ data.Data
      intro a b hab
      have hab2 : a.ID = b.ID := hab
      refine ⟨(newServiceCollector.Queries, [("service", a.ID)]), ?_, ?_⟩
      · exact List.mem_map.2 ⟨_, List.mem_cons_self _ _, rfl⟩
      · rw [hab2]
        exact List.mem_map.2 ⟨_, List.mem_cons_self _ _, rfl⟩

theorem one_sample_per_pair_of_distinct_ids_witness :
    (getServer envTwo = .ret ⟨[srv1, srv2]⟩ ∧
      ((Server.mk [srv1, srv2]).Data.map (fun d => d.ID)).Nodup ∧
      ∃ ms, newServerCollector.Collect envTwo = .ret ms ∧ ms.length = 18 ∧
        (ms.map Metric.key).Nodup) ∧
    (getService envTwo = .ret ⟨[svc1, svc2]⟩ ∧
      ((Service.mk [svc1, svc2]).Data.map (fun d => d.ID)).Nodup ∧
      ∃ ms, newServiceCollector.Collect envTwo = .ret ms ∧ ms.length = 24 ∧
        (ms.map Metric.key).Nodup) := by
  refine ⟨⟨rfl, by decide, ?_⟩, ⟨rfl, by decide, ?_⟩⟩
  · obtain ⟨ms, h1, h2, _⟩ := (one_sample_per_pair_of_distinct_ids envTwo).1 ⟨[srv1, srv2]⟩ rfl
    have e := Outcome.ret.inj ((server_Collect_eq envTwo ⟨[srv1, srv2]⟩ rfl).symm.trans h1)
    subst e
    exact ⟨_, h1, rfl, h2 (by decide)⟩
  · obtain ⟨ms, h1, h2, _⟩ := (one_sample_per_pair_of_distinct_ids envTwo).2 ⟨[svc1, svc2]⟩ rfl
    have e := Outcome.ret.inj ((service_Collect_eq envTwo ⟨[svc1, svc2]⟩ rfl).symm.trans h1)
    subst e
    exact ⟨_, h1, rfl, h2 (by decide)⟩

/-- C8, as stated, fails: on a well-formed JSON body whose `connections` is a
string, `json.Unmarshal` returns an error (a type error) after filling the
target; `getServer` drops the error and returns the decoded instance, and
`Collect` sends its nine samples (twelve for the service collector). -/
theorem type_error_body_still_yields_samples :
    getHttp envMismatch "servers" = .ret mismatchBody ∧
    (Unmarshal (envMismatch.jsonServer mismatchBody) Server.zero).2
      = some .UnmarshalTypeError ∧
    getServer envMismatch = .ret ⟨[srvSkipped]⟩ ∧
    newServerCollector.Collect envMismatch
      = .ret (serverSamples newServerCollector srvSkipped) ∧
    (serverSamples newServerCollector srvSkipped).length = 9 ∧
    newServerCollector.Collect envMismatch ≠ .ret [] ∧
    getService envMismatch = .ret ⟨[svcSkipped]⟩ ∧
    newServiceCollector.Collect envMismatch
      = .ret (serviceSamples newServiceCollector svcSkipped) ∧
    newServiceCollector.Collect envMismatch ≠ .ret [] := by
  have h1 : newServerCollector.Collect envMismatch
      = .ret (serverSamples newServerCollector srvSkipped) := by
    rw [server_Collect_eq envMismatch ⟨[srvSkipped]⟩ rfl]
    simp
  have h2 : newServiceCollector.Collect envMismatch
      = .ret (serviceSamples newServiceCollector svcSkipped) := by
    rw [service_Collect_eq envMismatch ⟨[svcSkipped]⟩ rfl]
    simp
  refine ⟨rfl, rfl, rfl, h1, rfl, ?_, rfl, h2, ?_⟩
  · rw [h1]
    intro h
    exact absurd (congrArg List.length (Outcome.ret.inj h)) (by decide)
  · rw [h2]
    intro h
    exact absurd (congrArg List.length (Outcome.ret.inj h)) (by decide)

/-- C8, amended: whenever `json.Unmarshal` returns an error on the body fetched,
`getServer` resp. `getService` drops it and returns, and `Collect` completes.
The error is a syntax error or a type error. On a syntax error (the body is not
well-formed JSON) the result is the zero value and `Collect` sends no sample; on
a type error (well-formed JSON, a value that does not fit its field) the result
is what was decoded and `Collect` sends the samples of its instances. -/
theorem unmarshal_error_is_dropped (env : Env) :
    (∀ body, getHttp env "servers" = .ret body →
      (Unmarshal (env.jsonServer body) Server.zero).2 ≠ none →
      ∃ ms, getServer env = .ret (Unmarshal (env.jsonServer body) Server.zero).1 ∧
        newServerCollector.Collect env = .ret ms ∧
        (env.jsonServer body = .malformed ∨ ∃ v, env.jsonServer body = .mismatch v) ∧
        (env.jsonServer body = .malformed →
          (Unmarshal (env.jsonServer body) Server.zero).2 = some .SyntaxError ∧
          getServer env = .ret Server.zero ∧ ms = []) ∧
        (∀ v, env.jsonServer body = .mismatch v →
          (Unmarshal (env.jsonServer body) Server.zero).2 = some .UnmarshalTypeError ∧
          getServer env = .ret v ∧ ms.length = 9 * v.Data.length)) ∧
    (∀ body, getHttp env "services" = .ret body →
      (Unmarshal (env.jsonService body) Service.zero).2 ≠ none →
      ∃ ms, getService env = .ret (Unmarshal (env.jsonService body) Service.zero).1 ∧
        newServiceCollector.Collect env = .ret ms ∧
        (env.jsonService body = .malformed ∨ ∃ v, env.jsonService body = .mismatch v) ∧
        (env.jsonService body = .malformed →
          (Unmarshal (env.jsonService body) Service.zero).2 = some .SyntaxError ∧
          getService env = .ret Service.zero ∧ ms = []) ∧
        (∀ v, env.jsonService body = .mismatch v →
          (Unmarshal (env.jsonService body) Service.zero).2 = some .UnmarshalTypeError ∧
          getService env = .ret v ∧ ms.length = 12 * v.Data.length)) := by
  constructor
  · intro body hb herr
    have hg := getServer_of_body env body hb
    refine ⟨_, hg, server_Collect_eq env _ hg, ?_, ?_, ?_⟩
    · cases hd : env.jsonServer body with
      | decoded v => rw [hd] at herr; exact absurd rfl herr
      | malformed => exact Or.inl rfl
      | mismatch v => exact Or.inr ⟨v, rfl⟩
    · intro hm
      rw [hg, hm]
      exact ⟨rfl, rfl, rfl⟩
    · intro v hm
      rw [hg, hm]
      exact ⟨rfl, rfl, length_flatMap_const _ 9 (serverSamples_length _) _⟩
  · intro body hb herr
    have hg := getService_of_body env body hb
    refine ⟨_, hg, service_Collect_eq env _ hg, ?_, ?_, ?_⟩
    · cases hd : env.jsonService body with
      | decoded v => rw [hd] at herr; exact absurd rfl herr
      | malformed => exact Or.inl rfl
      | mismatch v => exact Or.inr ⟨v, rfl⟩
    · intro hm
      rw [hg, hm]
      exact ⟨rfl, rfl, rfl⟩
    · intro v hm
      rw [hg, hm]
      exact ⟨rfl, rfl, length_flatMap_const _ 12 (serviceSamples_length _) _⟩

theorem unmarshal_error_is_dropped_witness :
    (getHttp envMalformed "servers" = .ret [123] ∧
      (Unmarshal (envMalformed.jsonServer [123]) Server.zero).2 ≠ none ∧
      envMalformed.jsonServer [123] = .malformed ∧
      ∃ ms, newServerCollector.Collect envMalformed = .ret ms ∧ ms = []) ∧
    (getHttp envMismatch "services" = .ret mismatchBody ∧
      (Unmarshal (envMismatch.jsonService mismatchBody) Service.zero).2 ≠ none ∧
      envMismatch.jsonService mismatchBody = .mismatch ⟨[svcSkipped]⟩ ∧
      ∃ ms, newServiceCollector.Collect envMismatch = .ret ms ∧
        ms.length = 12 * (Service.mk [svcSkipped]).Data.length) :=
  ⟨⟨rfl, by decide, rfl,
      ((unmarshal_error_is_dropped envMalformed).1 [123] rfl (by decide)).imp
        fun _ hms => ⟨hms.2.1, (hms.2.2.2.1 rfl).2.2⟩⟩,
    ⟨rfl, by decide, rfl,
      ((unmarshal_error_is_dropped envMismatch).2 mismatchBody rfl (by decide)).imp
        fun _ hms => ⟨hms.2.1, (hms.2.2.2.2 ⟨[svcSkipped]⟩ rfl).2.2⟩⟩⟩

/-- C9, as stated, fails: when `client.Do` returns an error, `getHttp` does not
return to its caller; it runs `log.Fatal`, which ends the process, so neither
`Collect` completes. -/
theorem fetch_failure_terminates_process :
    envDown.clientDo (requestOf envDown "servers") = none ∧
    getHttp envDown "servers" = .fatal ∧
    getHttp envDown "services" = .fatal ∧
    newServerCollector.Collect envDown = .fatal ∧
    newServiceCollector.Collect envDown = .fatal ∧
    (¬ ∃ body, getHttp envDown "servers" = .ret body) ∧
    (¬ ∃ ms, newServerCollector.Collect envDown = .ret ms) := by
  have h1 : getHttp envDown "servers" = .fatal := rfl
  have h2 : getHttp envDown "services" = .fatal := rfl
  have h3 := server_Collect_of_fatal envDown h1
  have h4 := service_Collect_of_fatal envDown h2
  refine ⟨rfl, h1, h2, h3, h4, ?_, ?_⟩
  · rintro ⟨body, hb⟩
    rw [h1] at hb
    exact Outcome.noConfusion hb
  · rintro ⟨ms, hms⟩
    rw [h3] at hms
    exact Outcome.noConfusion hms

/-- C9, amended: for a path whose request `http.NewRequest` built, whenever
`client.Do` answers with a response, `getHttp` returns its body and `Collect`
completes, whatever the JSON decoder makes of the body (also when it returns an
error); whenever `client.Do` returns an error, `getHttp` runs `log.Fatal` and
`Collect` ends the process. -/
theorem fetch_error_is_fatal_decode_error_is_not (env : Env) :
    (∀ path body, env.requestOk "GET" (urlOf env path) = true →
      env.clientDo (requestOf env path) = some body → getHttp env path = .ret body) ∧
    (∀ path, env.requestOk "GET" (urlOf env path) = true →
      env.clientDo (requestOf env path) = none → getHttp env path = .fatal) ∧
    (∀ body, env.requestOk "GET" (urlOf env "servers") = true →
      env.clientDo (requestOf env "servers") = some body →
      ∃ ms, newServerCollector.Collect env = .ret ms) ∧
    (∀ body, env.requestOk "GET" (urlOf env "services") = true →
      env.clientDo (requestOf env "services") = some body →
      ∃ ms, newServiceCollector.Collect env = .ret ms) ∧
    (env.requestOk "GET" (urlOf env "servers") = true →
      env.clientDo (requestOf env "servers") = none →
      newServerCollector.Collect env = .fatal) ∧
    (env.requestOk "GET" (urlOf env "services") = true →
      env.clientDo (requestOf env "services") = none →
      newServiceCollector.Collect env = .fatal) := by
  refine ⟨?_, ?_, ?_, ?_, ?_, ?_⟩
  · intro path body hreq hdo
    exact getHttp_of_response env path body hreq hdo
  · intro path hreq hdo
    exact getHttp_of_error env path hreq hdo
  · intro body hreq hdo
    have hb := getHttp_of_response env "servers" body hreq hdo
    exact ⟨_, server_Collect_eq env _ (getServer_of_body env body hb)⟩
  · intro body hreq hdo
    have hb := getHttp_of_response env "services" body hreq hdo
    exact ⟨_, service_Collect_eq env _ (getService_of_body env body hb)⟩
  · intro hreq hdo
    exact server_Collect_of_fatal env (getHttp_of_error env "servers" hreq hdo)
  · intro hreq hdo
    exact service_Collect_of_fatal env (getHttp_of_error env "services" hreq hdo)

theorem fetch_error_is_fatal_decode_error_is_not_witness :
    envPicky.requestOk "GET" (urlOf envPicky "servers") = true ∧
    envPicky.requestOk "GET" (urlOf envPicky "bad path") = false ∧
    envPicky.clientDo (requestOf envPicky "servers") = some [123] ∧
    (∃ ms, newServerCollector.Collect envPicky = .ret ms) ∧
    envDown.requestOk "GET" (urlOf envDown "services") = true ∧
    envDown.clientDo (requestOf envDown "services") = none ∧
    newServiceCollector.Collect envDown = .fatal :=
  ⟨by decide, by decide, rfl,
    (fetch_error_is_fatal_decode_error_is_not envPicky).2.2.1 [123] (by decide) rfl,
    rfl, rfl,
    (fetch_error_is_fatal_decode_error_is_not envDown).2.2.2.2.2 rfl rfl⟩

/-- C10: every sample `ServerCollector.Collect` resp. `ServiceCollector.Collect`
sends uses a descriptor that the same collector's `Describe` sends. The
descriptors used for one service instance are exactly the described ones; those
used for one server instance are exactly the described ones other than
`s_adaptive_avg_select_time`, which is described. -/
theorem collected_descriptors_are_described (env : Env) :
    (∀ data : Server, getServer env = .ret data →
      ∃ ms, newServerCollector.Collect env = .ret ms ∧
        (∀ m ∈ ms, m.desc ∈ newServerCollector.Describe) ∧
        ∀ (i : Nat), i < data.Data.length → ∀ d : Desc,
          d ∈ ((ms.drop (9 * i)).take 9).map (fun m => m.desc) ↔
            (d ∈ newServerCollector.Describe ∧
              d ≠ newServerCollector.AdaptiveAvgSelectTime)) ∧
    (∀ data : Service, getService env = .ret data →
      ∃ ms, newServiceCollector.Collect env = .ret ms ∧
        (∀ m ∈ ms, m.desc ∈ newServiceCollector.Describe) ∧
        ∀ (i : Nat), i < data.Data.length → ∀ d : Desc,
          d ∈ ((ms.drop (12 * i)).take 12).map (fun m => m.desc) ↔
            d ∈ newServiceCollector.Describe) ∧
    newServerCollector.AdaptiveAvgSelectTime ∈ newServerCollector.Describe ∧
    newServerCollector.AdaptiveAvgSelectTime.fqName = "s_adaptive_avg_select_time" := by
  refine ⟨?_, ?_, by decide, rfl⟩
  · intro data h
    refine ⟨_, server_Collect_eq env data h, ?_, ?_⟩
    · intro m hm
      obtain ⟨d, _, hmd⟩ := List.mem_flatMap.1 hm
      have hin : m.desc ∈ (serverSamples newServerCollector d).map (fun m => m.desc) :=
        List.mem_map.2 ⟨m, hmd, rfl⟩
      rw [server_descs] at hin
      exact (List.mem_filter.1 hin).1
    · intro i hi d
      rw [flatMap_block _ 9 (serverSamples_length _) _ i hi, server_descs, List.mem_filter]
      simp only [decide_eq_true_eq]
  · intro data h
    refine ⟨_, service_Collect_eq env data h, ?_, ?_⟩
    · intro m hm
      obtain ⟨d, _, hmd⟩ := List.mem_flatMap.1 hm
      have hin : m.desc ∈ (serviceSamples newServiceCollector d).map (fun m => m.desc) :=
        List.mem_map.2 ⟨m, hmd, rfl⟩
      rw [service_descs] at hin
      exact hin
    · intro i hi d
      rw [flatMap_block _ 12 (serviceSamples_length _) _ i hi, service_descs]

theorem collected_descriptors_are_described_witness :
    (getServer envDemo = .ret ⟨[srv1]⟩ ∧
      ∃ ms, newServerCollector.Collect envDemo = .ret ms ∧
        ∀ m ∈ ms, m.desc ∈ newServerCollector.Describe) ∧
    (getService envDemo = .ret ⟨[svc1]⟩ ∧
      ∃ ms, newServiceCollector.Collect envDemo = .ret ms ∧
        ∀ m ∈ ms, m.desc ∈ newServiceCollector.Describe) :=
  ⟨⟨rfl, ((collected_descriptors_are_described envDemo).1 ⟨[srv1]⟩ rfl).imp
      fun _ hms => ⟨hms.1, hms.2.1⟩⟩,
    ⟨rfl, ((collected_descriptors_are_described envDemo).2.1 ⟨[svc1]⟩ rfl).imp
      fun _ hms => ⟨hms.1, hms.2.1⟩⟩⟩

end MaxscaleExporter
